import Mathlib

/-!
# Verification of the music-note-game simulation core

Shallow embedding of `src/game.ts` (the most complete variant of the game;
`game.js` is an earlier snapshot).  JavaScript numbers are modelled as
rationals (`ℚ`); all reachable gameplay arithmetic stays well inside the
exactly-representable range of IEEE doubles, so rational arithmetic matches
the source semantics on every value appearing in the theorems below.
Integer-valued counters (score, lives, difficulty) are modelled as `ℤ`.

`Number.prototype.toFixed(1)` followed by string comparison / `parseFloat`
is modelled by rounding to the nearest tenth (`toFixed1`); for the positive
half-grid staff values the game works with, the string produced by
`toFixed(1)` is determined by, and determines, this rounded rational.

Audio is modelled as an event log of the calls the core makes
(`playNote` / `playErrorSound`); whether the call produces audible output
(mute flag, AudioContext state) is external to the simulation core.
Image loading and canvas rendering have no effect on the simulation state
and are omitted.
-/

namespace MusicGame

/-! ## Configuration constants (CONFIG, UI_LAYOUT, trebleClef in game.ts) -/

def GRID_SIZE : ℚ := 32
def PLAYER_SIZE : ℚ := 32
def MOVE_SPEED : ℚ := 3/20
def PLAYER_INITIAL_GRID_X : ℚ := 4
def PLAYER_INITIAL_GRID_Y : ℚ := 4
def COLLISION_POINTS_GAINED : ℤ := 100
def MISS_POINTS_LOST : ℤ := -50
def BPM : ℚ := 90
def STAFF_POSITIONS : ℕ := 9

/-- trebleClef.x = 1 * GRID_SIZE -/
def trebleClefX : ℚ := 1 * GRID_SIZE
/-- trebleClef.width = 3 * GRID_SIZE -/
def trebleClefWidth : ℚ := 3 * GRID_SIZE

/-- Model of `x.toFixed(1)` (and of `parseFloat(x.toFixed(1))`): round to the
nearest tenth.  String equality of two `toFixed(1)` results on positive
in-range values coincides with equality of the rounded rationals. -/
def toFixed1 (q : ℚ) : ℚ := (round (q * 10) : ℤ) / 10

/-! ## Note durations and the hit window (getNoteDuration, update lines 841-845) -/

/-- `getNoteDuration`: table lookup over the note value scaled by the beat
duration `60 / CONFIG.BPM`; an unmapped value yields `undefined` and the
`|| noteDurations['quarter']` fallback (all table entries are nonzero, so
the fallback fires exactly on unmapped keys). -/
def getNoteDuration (noteValue : String) : ℚ :=
  let beatDuration := 60 / BPM
  if noteValue = "whole" then beatDuration * 4
  else if noteValue = "half" then beatDuration * 2
  else if noteValue = "quarter" then beatDuration * 1
  else if noteValue = "eighth" then beatDuration * (1/2)
  else if noteValue = "sixteenth" then beatDuration * (1/4)
  else beatDuration * 1

/-- `overlayStartX = trebleClef.x + trebleClef.width` (same expression in
`update`, `render` and `handleNoteKeyPress`). -/
def overlayStartX : ℚ := trebleClefX + trebleClefWidth

/-- `overlayWidth = noteDuration * obstacleSpeed` where `obstacleSpeed` is
the literal constant `150` in all three call sites (not the
difficulty-scaled speed). -/
def overlayWidth (noteValue : String) : ℚ := getNoteDuration noteValue * 150

/-- `overlayEndX = overlayStartX + overlayWidth`. -/
def overlayEndX (noteValue : String) : ℚ := overlayStartX + overlayWidth noteValue

/-! ## Difficulty curve -/

/-- `calculateDifficulty`: `Math.min(5, Math.floor(elapsedTime / 30) + 1)`. -/
def calculateDifficulty (elapsedTime : ℚ) : ℤ := min 5 (⌊elapsedTime / 30⌋ + 1)

/-- `getSpawnInterval`: `Math.max(0.8, 2 - (difficulty - 1) * 0.2)`. -/
def getSpawnInterval (difficulty : ℤ) : ℚ := max (4/5) (2 - (difficulty - 1) * (1/5))

/-- `getObstacleSpeed`: `150 + (difficulty - 1) * 30`. -/
def getObstacleSpeed (difficulty : ℤ) : ℚ := 150 + (difficulty - 1) * 30

/-! ## Fade animation (embedded in each obstacle) -/

structure FadeAnim where
  isAnimating : Bool
  progress : ℚ
  duration : ℚ
  deriving DecidableEq, Repr

def FadeAnim.init : FadeAnim := ⟨false, 0, 1/2⟩

/-- `fadeAnimation.start()` -/
def FadeAnim.start (f : FadeAnim) : FadeAnim := { f with isAnimating := true, progress := 0 }

/-- `fadeAnimation.update(delta)` -/
def FadeAnim.update (f : FadeAnim) (delta : ℚ) : FadeAnim :=
  if f.isAnimating then
    let p := f.progress + delta / f.duration
    if 1 ≤ p then { f with progress := 1, isAnimating := false }
    else { f with progress := p }
  else f

/-! ## Obstacles -/

structure Obstacle where
  pixelX : ℚ
  pixelY : ℚ
  imagePath : Option String
  speed : ℚ
  hasBeenAvoided : Bool
  hasCollided : Bool
  fadeAnim : FadeAnim
  deriving DecidableEq, Repr

/-- `obstacleGenerator(pixelX, pixelY, imagePath, speed)` -/
def obstacleGenerator (pixelX pixelY : ℚ) (imagePath : Option String) (speed : ℚ) :
    Obstacle :=
  { pixelX := pixelX, pixelY := pixelY, imagePath := imagePath, speed := speed,
    hasBeenAvoided := false, hasCollided := false, fadeAnim := FadeAnim.init }

/-! ## Lives -/

structure Lives where
  current : ℤ
  max : ℤ
  deriving DecidableEq, Repr

/-- `lives.isGameOver()`: `current <= 0`. -/
def Lives.isGameOver (l : Lives) : Bool := decide (l.current ≤ 0)

/-- `lives.loseLife()`: decrement when positive, return `isGameOver()`. -/
def Lives.loseLife (l : Lives) : Lives × Bool :=
  let l' := if 0 < l.current then { l with current := l.current - 1 } else l
  (l', l'.isGameOver)

/-- `lives.checkMiss(obstacle, playerX, overlayStartX)`: if the obstacle's
right edge is strictly left of the overlay start and neither flag is set,
mark it avoided, lose a life and report `true`.  Returns the updated lives,
the updated obstacle and the reported flag. -/
def Lives.checkMiss (l : Lives) (obs : Obstacle) (_playerX overlayStart : ℚ) :
    Lives × Obstacle × Bool :=
  if obs.pixelX + GRID_SIZE < overlayStart ∧
      obs.hasBeenAvoided = false ∧ obs.hasCollided = false then
    ((l.loseLife).1, { obs with hasBeenAvoided := true }, true)
  else
    (l, obs, false)

/-- `lives.reset()` -/
def Lives.reset (l : Lives) : Lives := { l with current := l.max }

def Lives.init : Lives := ⟨5, 5⟩

/-! ## Score -/

/-- `score.addPoints(points)` on `score.current`. -/
def addPoints (current points : ℤ) : ℤ := current + points

/-! ## Audio call log -/

/-- One fire-and-forget audio call made by the core. -/
inductive AudioCall where
  | note (pixelY : ℚ)
  | errorSound
  deriving DecidableEq, Repr

/-! ## Transient animation sub-state machines -/

/-- `playerAnimation` (hit bounce). -/
structure PlayerAnim where
  isAnimating : Bool
  progress : ℚ
  duration : ℚ
  deriving DecidableEq, Repr

def PlayerAnim.init : PlayerAnim := ⟨false, 0, 1/5⟩

def PlayerAnim.start (a : PlayerAnim) : PlayerAnim :=
  { a with isAnimating := true, progress := 0 }

def PlayerAnim.update (a : PlayerAnim) (delta : ℚ) : PlayerAnim :=
  if a.isAnimating then
    let p := a.progress + delta / a.duration
    if 1 ≤ p then { a with progress := 1, isAnimating := false }
    else { a with progress := p }
  else a

/-- `audio.noteNames` lookup keyed by `roundedGridY.toFixed(1)`. -/
def noteNameFor (roundedGridY : ℚ) : Option String :=
  if roundedGridY = 5 then some "F"
  else if roundedGridY = 11/2 then some "E"
  else if roundedGridY = 6 then some "D"
  else if roundedGridY = 13/2 then some "C"
  else if roundedGridY = 7 then some "B"
  else if roundedGridY = 15/2 then some "A"
  else if roundedGridY = 8 then some "G"
  else if roundedGridY = 17/2 then some "F"
  else if roundedGridY = 9 then some "E"
  else none

/-- `noteDisplay` (floating note-name display). -/
structure NoteDisplay where
  noteName : Option String
  displayTime : ℚ
  displayDuration : ℚ
  deriving DecidableEq, Repr

def NoteDisplay.init : NoteDisplay := ⟨none, 0, 4/5⟩

/-- `noteDisplay.show(pixelY)`: `Math.round(gridY * 2) / 2` then the
note-name table with fallback `'C'`. -/
def NoteDisplay.show (n : NoteDisplay) (pixelY : ℚ) : NoteDisplay :=
  let gridY := pixelY / GRID_SIZE
  let roundedGridY := (round (gridY * 2) : ℤ) / 2
  { n with noteName := some ((noteNameFor roundedGridY).getD "C"), displayTime := 0 }

def NoteDisplay.update (n : NoteDisplay) (delta : ℚ) : NoteDisplay :=
  match n.noteName with
  | some _ =>
      let t := n.displayTime + delta
      if n.displayDuration ≤ t then { n with noteName := none, displayTime := t }
      else { n with displayTime := t }
  | none => n

inductive FlashColor where
  | green
  | red
  deriving DecidableEq, Repr

/-- `hitZoneFlash`. -/
structure HitZoneFlash where
  isFlashing : Bool
  color : FlashColor
  progress : ℚ
  duration : ℚ
  deriving DecidableEq, Repr

def HitZoneFlash.init : HitZoneFlash := ⟨false, FlashColor.green, 0, 3/10⟩

def HitZoneFlash.start (h : HitZoneFlash) (c : FlashColor) : HitZoneFlash :=
  { h with isFlashing := true, color := c, progress := 0 }

def HitZoneFlash.update (h : HitZoneFlash) (delta : ℚ) : HitZoneFlash :=
  if h.isFlashing then
    let p := h.progress + delta / h.duration
    if 1 ≤ p then { h with progress := 1, isFlashing := false }
    else { h with progress := p }
  else h

/-! ## Player and movement interpolation -/

structure Movement where
  isMoving : Bool
  moveProgress : ℚ
  nextPixelX : Option ℚ
  nextPixelY : Option ℚ
  deriving DecidableEq, Repr

def Movement.init : Movement := ⟨false, 0, none, none⟩

structure Player where
  pixelX : ℚ
  pixelY : ℚ
  noteValue : String
  deriving DecidableEq, Repr

def Player.init : Player :=
  ⟨PLAYER_INITIAL_GRID_X * GRID_SIZE, PLAYER_INITIAL_GRID_Y * GRID_SIZE, "half"⟩

/-- `player.getPixelX()`: interpolated X while a move is in flight. -/
def Player.getPixelX (p : Player) (m : Movement) : ℚ :=
  match m.isMoving, m.nextPixelX with
  | true, some nx => p.pixelX + (nx - p.pixelX) * m.moveProgress
  | _, _ => p.pixelX

/-- `player.getPixelY()`: interpolated Y while a move is in flight. -/
def Player.getPixelY (p : Player) (m : Movement) : ℚ :=
  match m.isMoving, m.nextPixelY with
  | true, some ny => p.pixelY + (ny - p.pixelY) * m.moveProgress
  | _, _ => p.pixelY

/-! ## Note key map and spawner -/

/-- `NOTE_KEY_MAP` (letter → staff grid lines). -/
def NOTE_KEY_MAP (key : String) : Option (List ℚ) :=
  if key = "c" then some [13/2]
  else if key = "d" then some [6]
  else if key = "e" then some [11/2, 9]
  else if key = "f" then some [5, 17/2]
  else if key = "g" then some [8]
  else if key = "a" then some [15/2]
  else if key = "b" then some [7]
  else none

structure Spawner where
  timeSinceLastSpawn : ℚ
  currentImageIndex : ℕ
  deriving DecidableEq, Repr

def Spawner.init : Spawner := ⟨0, 0⟩

def monsterImages : List String :=
  ["assets/MonsterIcons/monster.png", "assets/MonsterIcons/monster (1).png",
   "assets/MonsterIcons/monster (2).png", "assets/MonsterIcons/monster (3).png"]

/-- `obstacleSpawner.getNextImage()`: round-robin over the 4 images. -/
def Spawner.getNextImage (s : Spawner) : String × Spawner :=
  (monsterImages.getD s.currentImageIndex "",
   { s with currentImageIndex := (s.currentImageIndex + 1) % monsterImages.length })

/-! ## Game state and the world -/

structure GState where
  hasStarted : Bool
  isGameOver : Bool
  isNoteKeyPressed : Bool
  currentNoteGridY : Option ℚ
  elapsedTime : ℚ
  difficulty : ℤ
  deriving DecidableEq, Repr

def GState.init : GState := ⟨false, false, false, none, 0, 1⟩

/-- The whole mutable game world of `main()`.  `gameWidth` is
`canvas.width - UI_LAYOUT.sidebarWidth`, fixed by the host page. -/
structure World where
  gameWidth : ℚ
  lives : Lives
  score : ℤ
  gameState : GState
  obstacles : List Obstacle
  player : Player
  movement : Movement
  playerAnim : PlayerAnim
  noteDisplay : NoteDisplay
  hitZoneFlash : HitZoneFlash
  spawner : Spawner
  selectedNote : String
  audioLog : List AudioCall
  deriving DecidableEq, Repr

def World.init (gameWidth : ℚ) : World :=
  { gameWidth := gameWidth, lives := Lives.init, score := 0,
    gameState := GState.init, obstacles := [], player := Player.init,
    movement := Movement.init, playerAnim := PlayerAnim.init,
    noteDisplay := NoteDisplay.init, hitZoneFlash := HitZoneFlash.init,
    spawner := Spawner.init, selectedNote := "half", audioLog := [] }

/-! ## Passive collision pass (`checkPlayerCollisions`) -/

structure CollideAcc where
  obstacles : List Obstacle
  score : ℤ
  playerAnim : PlayerAnim
  noteDisplay : NoteDisplay
  hitZoneFlash : HitZoneFlash
  audioLog : List AudioCall
  deriving DecidableEq, Repr

/-- The `obstacles.forEach` body of `checkPlayerCollisions`: the player
position is read through the interpolating getters (`px`, `py`), the
staff-line comparison is `toFixed(1)` string equality. -/
def collideGo (px py : ℚ) (acc : CollideAcc) : List Obstacle → CollideAcc
  | [] => acc
  | obs :: rest =>
      let dx := |px + PLAYER_SIZE / 2 - (obs.pixelX + GRID_SIZE / 2)|
      if (dx < PLAYER_SIZE ∧ toFixed1 (py / GRID_SIZE) = toFixed1 (obs.pixelY / GRID_SIZE))
          ∧ obs.hasCollided = false then
        collideGo px py
          { obstacles := acc.obstacles ++
              [{ obs with hasCollided := true, fadeAnim := obs.fadeAnim.start }],
            score := addPoints acc.score COLLISION_POINTS_GAINED,
            playerAnim := acc.playerAnim.start,
            noteDisplay := acc.noteDisplay.show obs.pixelY,
            hitZoneFlash := acc.hitZoneFlash.start FlashColor.green,
            audioLog := acc.audioLog ++ [AudioCall.note obs.pixelY] } rest
      else
        collideGo px py { acc with obstacles := acc.obstacles ++ [obs] } rest

/-! ## Passive miss pass (the `lives.checkMiss` loop in `update`) -/

structure MissAcc where
  obstacles : List Obstacle
  lives : Lives
  isGameOver : Bool
  audioLog : List AudioCall
  deriving DecidableEq, Repr

def missGo (playerX overlayStart : ℚ) (acc : MissAcc) : List Obstacle → MissAcc
  | [] => acc
  | obs :: rest =>
      let r := acc.lives.checkMiss obs playerX overlayStart
      if r.2.2 then
        missGo playerX overlayStart
          { obstacles := acc.obstacles ++ [r.2.1], lives := r.1,
            isGameOver := if r.1.isGameOver then true else acc.isGameOver,
            audioLog := acc.audioLog ++ [AudioCall.errorSound] } rest
      else
        missGo playerX overlayStart
          { acc with obstacles := acc.obstacles ++ [r.2.1], lives := r.1 } rest

/-! ## Obstacle pool cleanup (the reversed `splice` loop in `update`) -/

/-- The removal condition of the cleanup loop:
`obs.pixelX + GRID_SIZE < 0 || (progress >= 1 && !isAnimating)`. -/
def shouldRemove (obs : Obstacle) : Bool :=
  decide (obs.pixelX + GRID_SIZE < 0) ||
    (decide (1 ≤ obs.fadeAnim.progress) && !obs.fadeAnim.isAnimating)

/-- The cleanup loop iterates from the end and splices out each obstacle
satisfying `shouldRemove`; the removal decisions are independent per
element, so the loop is a filter. -/
def cleanupObstacles (l : List Obstacle) : List Obstacle :=
  l.filter (fun o => !shouldRemove o)

/-! ## The simulation step (`update`), split into its successive phases -/

/-- The elapsed-time / difficulty block at the top of `update`. -/
def stepGState (delta : ℚ) (gs : GState) : GState :=
  if gs.hasStarted ∧ gs.isGameOver = false then
    let e := gs.elapsedTime + delta
    { gs with elapsedTime := e, difficulty := calculateDifficulty e }
  else gs

/-- The spawner block of `update`: accumulate the delta; on reaching the
difficulty-scaled interval, reset the accumulator, rotate the image and
append one obstacle at the right edge at a random half-grid staff line,
with the difficulty-scaled speed. -/
def stepSpawn (delta : ℚ) (randIdx : Fin 9) (difficulty : ℤ) (gameWidth : ℚ)
    (s : Spawner) (obstacles : List Obstacle) : Spawner × List Obstacle :=
  let t := s.timeSinceLastSpawn + delta
  if getSpawnInterval difficulty ≤ t then
    let r := Spawner.getNextImage { s with timeSinceLastSpawn := 0 }
    let randomGridY : ℚ := 5 + (randIdx : ℕ) * (1/2)
    (r.2, obstacles ++ [obstacleGenerator gameWidth (randomGridY * GRID_SIZE)
        (some r.1) (getObstacleSpeed difficulty)])
  else ({ s with timeSinceLastSpawn := t }, obstacles)

/-- The motion + fade forEach of `update`:
`obs.pixelX -= obs.speed * delta; obs.fadeAnimation.update(delta)`. -/
def moveFade (delta : ℚ) (o : Obstacle) : Obstacle :=
  { o with pixelX := o.pixelX - o.speed * delta, fadeAnim := o.fadeAnim.update delta }

/-- The movement-interpolation block of `update`. -/
def stepMovement (delta : ℚ) (m : Movement) (p : Player) : Movement × Player :=
  if m.isMoving then
    let pr := m.moveProgress + delta / MOVE_SPEED
    if 1 ≤ pr then
      ((⟨false, 1, none, none⟩ : Movement),
       { p with pixelX := m.nextPixelX.getD 0, pixelY := m.nextPixelY.getD 0 })
    else ({ m with moveProgress := pr }, p)
  else (m, p)

/-- The passive-miss pass of `update`, applied to the obstacle pool after
spawning and motion/fade, with the pre-pass lives and audio state. -/
def missPhase (delta : ℚ) (randIdx : Fin 9) (w : World) : MissAcc :=
  missGo w.player.pixelX overlayStartX
    { obstacles := [], lives := w.lives,
      isGameOver := (stepGState delta w.gameState).isGameOver,
      audioLog := w.audioLog }
    (((stepSpawn delta randIdx (stepGState delta w.gameState).difficulty
        w.gameWidth w.spawner w.obstacles).2).map (moveFade delta))

/-- The `checkPlayerCollisions` pass of `update`, applied to the cleaned-up
pool with the post-movement interpolated player position. -/
def collidePhase (delta : ℚ) (randIdx : Fin 9) (w : World) : CollideAcc :=
  collideGo
    ((stepMovement delta w.movement w.player).2.getPixelX
      (stepMovement delta w.movement w.player).1)
    ((stepMovement delta w.movement w.player).2.getPixelY
      (stepMovement delta w.movement w.player).1)
    { obstacles := [], score := w.score, playerAnim := w.playerAnim,
      noteDisplay := w.noteDisplay, hitZoneFlash := w.hitZoneFlash,
      audioLog := (missPhase delta randIdx w).audioLog }
    (cleanupObstacles (missPhase delta randIdx w).obstacles)

def update (delta : ℚ) (randIdx : Fin 9) (w : World) : World :=
  let gs1 := stepGState delta w.gameState
  let sp := stepSpawn delta randIdx gs1.difficulty w.gameWidth w.spawner w.obstacles
  let m := missPhase delta randIdx w
  let mp := stepMovement delta w.movement w.player
  let c := collidePhase delta randIdx w
  { w with
    gameState := { gs1 with isGameOver := m.isGameOver },
    spawner := sp.1,
    lives := m.lives,
    score := c.score,
    obstacles := c.obstacles,
    player := mp.2,
    movement := mp.1,
    playerAnim := c.playerAnim.update delta,
    noteDisplay := c.noteDisplay.update delta,
    hitZoneFlash := c.hitZoneFlash.update delta,
    audioLog := c.audioLog }

/-! ## Active key-press resolution (`handleNoteKeyPress`) -/

structure PressAcc where
  obstacles : List Obstacle
  score : ℤ
  playerAnim : PlayerAnim
  noteDisplay : NoteDisplay
  audioLog : List AudioCall
  hitCorrectNote : Bool
  hasObstacleInOverlay : Bool
  deriving DecidableEq, Repr

def pressGo (gridYs : List ℚ) (oStart oEnd : ℚ) (acc : PressAcc) :
    List Obstacle → PressAcc
  | [] => acc
  | obs :: rest =>
      let obsCenter := obs.pixelX + GRID_SIZE / 2
      let isWithinOverlay := oStart ≤ obsCenter ∧ obsCenter ≤ oEnd
      let acc1 :=
        if isWithinOverlay ∧ obs.hasCollided = false ∧ obs.hasBeenAvoided = false then
          { acc with hasObstacleInOverlay := true }
        else acc
      let obsGridY := toFixed1 (obs.pixelY / GRID_SIZE)
      if (∃ g ∈ gridYs, |g - obsGridY| < 1/10) ∧ isWithinOverlay ∧
          obs.hasCollided = false then
        pressGo gridYs oStart oEnd
          { obstacles := acc1.obstacles ++
              [{ obs with hasCollided := true, fadeAnim := obs.fadeAnim.start }],
            score := addPoints acc1.score COLLISION_POINTS_GAINED,
            playerAnim := acc1.playerAnim.start,
            noteDisplay := acc1.noteDisplay.show obs.pixelY,
            audioLog := acc1.audioLog ++ [AudioCall.note obs.pixelY],
            hitCorrectNote := true,
            hasObstacleInOverlay := acc1.hasObstacleInOverlay } rest
      else
        pressGo gridYs oStart oEnd { acc1 with obstacles := acc1.obstacles ++ [obs] } rest

def handleNoteKeyPress (gridYArray : List ℚ) (w : World) : World :=
  let oStart := overlayStartX
  let oEnd := oStart + overlayWidth w.player.noteValue
  let r := pressGo gridYArray oStart oEnd
    { obstacles := [], score := w.score, playerAnim := w.playerAnim,
      noteDisplay := w.noteDisplay, audioLog := w.audioLog,
      hitCorrectNote := false, hasObstacleInOverlay := false } w.obstacles
  if r.hasObstacleInOverlay ∧ r.hitCorrectNote = false then
    let l' := (w.lives.loseLife).1
    { w with
      obstacles := r.obstacles, score := r.score, playerAnim := r.playerAnim,
      noteDisplay := r.noteDisplay,
      audioLog := r.audioLog ++ [AudioCall.errorSound],
      hitZoneFlash := w.hitZoneFlash.start FlashColor.red,
      lives := l',
      gameState :=
        if l'.isGameOver then { w.gameState with isGameOver := true } else w.gameState }
  else
    { w with
      obstacles := r.obstacles, score := r.score, playerAnim := r.playerAnim,
      noteDisplay := r.noteDisplay, audioLog := r.audioLog }

/-! ## Input handlers and restart -/

def restartGame (w : World) : World :=
  { w with
    lives := w.lives.reset, score := 0,
    gameState := { w.gameState with
                   isGameOver := false, hasStarted := true,
                   elapsedTime := 0, difficulty := 1 },
    obstacles := [],
    player := { w.player with
                pixelX := PLAYER_INITIAL_GRID_X * GRID_SIZE,
                pixelY := PLAYER_INITIAL_GRID_Y * GRID_SIZE },
    movement := ⟨false, 0, none, none⟩,
    playerAnim := { w.playerAnim with isAnimating := false, progress := 0 },
    noteDisplay := { w.noteDisplay with noteName := none, displayTime := 0 },
    spawner := { w.spawner with timeSinceLastSpawn := 0 } }

/-- The `reduce` in `handleKeyDown` picking the obstacle with the largest
`pixelX` (the first one on ties, as JS `reduce` keeps the accumulator). -/
def closestPick (h : Obstacle) (t : List Obstacle) : Obstacle :=
  t.foldl (fun closest current =>
    if closest.pixelX < current.pixelX then current else closest) h

def handleKeyDown (key : String) (w : World) : World :=
  if key = "r" ∧ w.gameState.isGameOver then restartGame w
  else if w.gameState.isGameOver then w
  else
    match NOTE_KEY_MAP key with
    | some gridYArray =>
        let obstaclesAtNote := w.obstacles.filter (fun obs =>
          decide (∃ g ∈ gridYArray, |g - toFixed1 (obs.pixelY / GRID_SIZE)| < 1/10))
        let targetGridY :=
          match obstaclesAtNote with
          | [] => gridYArray.getD 0 0
          | h :: t => (closestPick h t).pixelY / GRID_SIZE
        let w1 := { w with gameState :=
          { w.gameState with isNoteKeyPressed := true,
                             currentNoteGridY := some targetGridY } }
        handleNoteKeyPress gridYArray w1
    | none => w

def handleKeyUp (key : String) (w : World) : World :=
  if w.gameState.isGameOver then w
  else
    match NOTE_KEY_MAP key with
    | some _ =>
        { w with gameState := { w.gameState with isNoteKeyPressed := false,
                                                 currentNoteGridY := none } }
    | none => w

def NOTE_VALUES : List String := ["whole", "half", "quarter", "eighth", "sixteenth"]

/-- A click on the start button (`handleCanvasClick`, not-started branch). -/
def startClick (w : World) : World :=
  if w.gameState.hasStarted = false then
    { w with gameState := { w.gameState with hasStarted := true } }
  else w

/-- A click on a sidebar note row (`handleCanvasClick` started branch,
followed by `player.updateNoteValue()`). -/
def selectNote (i : Fin 5) (w : World) : World :=
  if w.gameState.hasStarted then
    let note := NOTE_VALUES.getD i ""
    let w1 := { w with selectedNote := note }
    if note ≠ w1.player.noteValue then
      { w1 with player := { w1.player with noteValue := note } }
    else w1
  else w

/-! ## The event system (cooperative interleaving of the frame callback and
input callbacks, as wired in `loop` and `setupInputHandlers`) -/

inductive GEvent where
  | frame (delta : ℚ) (randIdx : Fin 9)
  | keyDown (key : String)
  | keyUp (key : String)
  | clickStart
  | clickNote (i : Fin 5)
  deriving DecidableEq, Repr

/-- One host callback.  A frame caps the delta at 0.016 s and runs `update`
only in the Playing state (`loop`); key and click events run their
handlers. -/
def applyEvent (e : GEvent) (w : World) : World :=
  match e with
  | GEvent.frame delta randIdx =>
      let cappedDelta := min delta (2/125)
      if w.gameState.hasStarted ∧ w.gameState.isGameOver = false then
        update cappedDelta randIdx w
      else w
  | GEvent.keyDown key => handleKeyDown key w
  | GEvent.keyUp key => handleKeyUp key w
  | GEvent.clickStart => startClick w
  | GEvent.clickNote i => selectNote i w

def replay (gameWidth : ℚ) (es : List GEvent) : World :=
  es.foldl (fun w e => applyEvent e w) (World.init gameWidth)

/-- A well-formed host event: frame deltas are non-negative (the timing
source is a monotone clock). -/
def GEvent.wfB : GEvent → Bool
  | GEvent.frame delta _ => decide (0 ≤ delta)
  | _ => true

/-- Host-supplied frame deltas are non-negative. -/
def EventsWF (es : List GEvent) : Prop := ∀ e ∈ es, e.wfB = true

/-! ## Helper lemmas about `loseLife` -/

theorem loseLife_fst_current_le (l : Lives) : (l.loseLife).1.current ≤ l.current := by
  unfold Lives.loseLife
  split
  · show l.current - 1 ≤ l.current
    omega
  · exact le_refl _

theorem loseLife_fst_nonneg (l : Lives) (h : 0 ≤ l.current) :
    0 ≤ (l.loseLife).1.current := by
  unfold Lives.loseLife
  split
  · show 0 ≤ l.current - 1
    omega
  · exact h

theorem loseLife_fst_max (l : Lives) : (l.loseLife).1.max = l.max := by
  unfold Lives.loseLife
  split <;> rfl

theorem loseLife_fst_current_of_pos (l : Lives) (h : 0 < l.current) :
    (l.loseLife).1.current = l.current - 1 := by
  unfold Lives.loseLife
  rw [if_pos h]

/-! ## Per-obstacle forms of the three resolution passes

Each forEach body updates an obstacle independently of the accumulated
score/lives state, so the obstacle component of each pass is a `List.map`
of the following per-obstacle functions. -/

/-- What `lives.checkMiss` does to the obstacle. -/
def missMark (os : ℚ) (o : Obstacle) : Obstacle :=
  if o.pixelX + GRID_SIZE < os ∧ o.hasBeenAvoided = false ∧ o.hasCollided = false then
    { o with hasBeenAvoided := true }
  else o

/-- What the `checkPlayerCollisions` body does to the obstacle. -/
def collideMark (px py : ℚ) (o : Obstacle) : Obstacle :=
  if (|px + PLAYER_SIZE / 2 - (o.pixelX + GRID_SIZE / 2)| < PLAYER_SIZE ∧
      toFixed1 (py / GRID_SIZE) = toFixed1 (o.pixelY / GRID_SIZE)) ∧
      o.hasCollided = false then
    { o with hasCollided := true, fadeAnim := o.fadeAnim.start }
  else o

/-- What the `handleNoteKeyPress` body does to the obstacle. -/
def pressMark (gridYs : List ℚ) (s e : ℚ) (o : Obstacle) : Obstacle :=
  if (∃ g ∈ gridYs, |g - toFixed1 (o.pixelY / GRID_SIZE)| < 1/10) ∧
      (s ≤ o.pixelX + GRID_SIZE / 2 ∧ o.pixelX + GRID_SIZE / 2 ≤ e) ∧
      o.hasCollided = false then
    { o with hasCollided := true, fadeAnim := o.fadeAnim.start }
  else o

theorem pressMark_hit {gridYs : List ℚ} {s e : ℚ} {o : Obstacle}
    (h : (∃ g ∈ gridYs, |g - toFixed1 (o.pixelY / GRID_SIZE)| < 1/10) ∧
      (s ≤ o.pixelX + GRID_SIZE / 2 ∧ o.pixelX + GRID_SIZE / 2 ≤ e) ∧
      o.hasCollided = false) :
    pressMark gridYs s e o = { o with hasCollided := true, fadeAnim := o.fadeAnim.start } :=
  if_pos h

theorem pressMark_skip {gridYs : List ℚ} {s e : ℚ} {o : Obstacle}
    (h : ¬((∃ g ∈ gridYs, |g - toFixed1 (o.pixelY / GRID_SIZE)| < 1/10) ∧
      (s ≤ o.pixelX + GRID_SIZE / 2 ∧ o.pixelX + GRID_SIZE / 2 ≤ e) ∧
      o.hasCollided = false)) :
    pressMark gridYs s e o = o :=
  if_neg h

theorem checkMiss_obstacle (l : Lives) (o : Obstacle) (px os : ℚ) :
    (l.checkMiss o px os).2.1 = missMark os o := by
  unfold Lives.checkMiss missMark
  split <;> simp_all

theorem missGo_obstacles (px os : ℚ) (acc : MissAcc) (l : List Obstacle) :
    (missGo px os acc l).obstacles = acc.obstacles ++ l.map (missMark os) := by
  induction l generalizing acc with
  | nil => simp [missGo]
  | cons o rest ih =>
      by_cases h : o.pixelX + GRID_SIZE < os ∧ o.hasBeenAvoided = false ∧
        o.hasCollided = false
      · simp only [missGo, Lives.checkMiss, if_pos h, if_true]
        rw [ih]
        simp [missMark, h]
      · simp only [missGo, Lives.checkMiss, if_neg h, Bool.false_eq_true, if_false]
        rw [ih]
        simp [missMark, h]

theorem missGo_lives (px os : ℚ) (acc : MissAcc) (l : List Obstacle) :
    (missGo px os acc l).lives.max = acc.lives.max ∧
    (missGo px os acc l).lives.current ≤ acc.lives.current ∧
    (0 ≤ acc.lives.current → 0 ≤ (missGo px os acc l).lives.current) := by
  induction l generalizing acc with
  | nil => simp [missGo]
  | cons o rest ih =>
      by_cases h : o.pixelX + GRID_SIZE < os ∧ o.hasBeenAvoided = false ∧
        o.hasCollided = false
      · simp only [missGo, Lives.checkMiss, if_pos h, if_true]
        refine ⟨?_, ?_, ?_⟩
        · rw [(ih _).1]
          exact loseLife_fst_max acc.lives
        · exact le_trans (ih _).2.1 (loseLife_fst_current_le acc.lives)
        · intro h0
          exact (ih _).2.2 (loseLife_fst_nonneg acc.lives h0)
      · simp only [missGo, Lives.checkMiss, if_neg h, Bool.false_eq_true, if_false]
        exact ih _

theorem collideGo_obstacles (px py : ℚ) (acc : CollideAcc) (l : List Obstacle) :
    (collideGo px py acc l).obstacles = acc.obstacles ++ l.map (collideMark px py) := by
  induction l generalizing acc with
  | nil => simp [collideGo]
  | cons o rest ih =>
      by_cases h : (|px + PLAYER_SIZE / 2 - (o.pixelX + GRID_SIZE / 2)| < PLAYER_SIZE ∧
          toFixed1 (py / GRID_SIZE) = toFixed1 (o.pixelY / GRID_SIZE)) ∧
          o.hasCollided = false
      · simp only [collideGo, if_pos h]
        rw [ih]
        simp [collideMark, h]
      · simp only [collideGo, if_neg h]
        rw [ih]
        simp [collideMark, h]

theorem collideGo_score (px py : ℚ) (acc : CollideAcc) (l : List Obstacle) :
    acc.score ≤ (collideGo px py acc l).score ∧
    ((100 : ℤ) ∣ acc.score → (100 : ℤ) ∣ (collideGo px py acc l).score) := by
  induction l generalizing acc with
  | nil => simp [collideGo]
  | cons o rest ih =>
      by_cases h : (|px + PLAYER_SIZE / 2 - (o.pixelX + GRID_SIZE / 2)| < PLAYER_SIZE ∧
          toFixed1 (py / GRID_SIZE) = toFixed1 (o.pixelY / GRID_SIZE)) ∧
          o.hasCollided = false
      · simp only [collideGo, if_pos h]
        refine ⟨le_trans ?_ (ih _).1, fun hd => (ih _).2 ?_⟩
        · show acc.score ≤ addPoints acc.score COLLISION_POINTS_GAINED
          simp only [addPoints, COLLISION_POINTS_GAINED]
          omega
        · show (100 : ℤ) ∣ addPoints acc.score COLLISION_POINTS_GAINED
          simp only [addPoints, COLLISION_POINTS_GAINED]
          exact dvd_add hd (dvd_refl 100)
      · simp only [collideGo, if_neg h]
        exact ih _

theorem pressGo_obstacles (gridYs : List ℚ) (s e : ℚ) (acc : PressAcc)
    (l : List Obstacle) :
    (pressGo gridYs s e acc l).obstacles =
      acc.obstacles ++ l.map (pressMark gridYs s e) := by
  induction l generalizing acc with
  | nil => simp [pressGo]
  | cons o rest ih =>
      by_cases h : (∃ g ∈ gridYs, |g - toFixed1 (o.pixelY / GRID_SIZE)| < 1/10) ∧
          (s ≤ o.pixelX + GRID_SIZE / 2 ∧ o.pixelX + GRID_SIZE / 2 ≤ e) ∧
          o.hasCollided = false
      all_goals
        by_cases h2 : (s ≤ o.pixelX + GRID_SIZE / 2 ∧ o.pixelX + GRID_SIZE / 2 ≤ e) ∧
          o.hasCollided = false ∧ o.hasBeenAvoided = false
      · simp only [pressGo, if_pos h, if_pos h2]
        rw [ih]
        simp [pressMark_hit h]
      · simp only [pressGo, if_pos h, if_neg h2]
        rw [ih]
        simp [pressMark_hit h]
      · simp only [pressGo, if_neg h, if_pos h2]
        rw [ih]
        simp [pressMark_skip h]
      · simp only [pressGo, if_neg h, if_neg h2]
        rw [ih]
        simp [pressMark_skip h]

theorem pressGo_score (gridYs : List ℚ) (s e : ℚ) (acc : PressAcc) (l : List Obstacle) :
    acc.score ≤ (pressGo gridYs s e acc l).score ∧
    ((100 : ℤ) ∣ acc.score → (100 : ℤ) ∣ (pressGo gridYs s e acc l).score) := by
  induction l generalizing acc with
  | nil => simp [pressGo]
  | cons o rest ih =>
      by_cases h : (∃ g ∈ gridYs, |g - toFixed1 (o.pixelY / GRID_SIZE)| < 1/10) ∧
          (s ≤ o.pixelX + GRID_SIZE / 2 ∧ o.pixelX + GRID_SIZE / 2 ≤ e) ∧
          o.hasCollided = false
      all_goals
        by_cases h2 : (s ≤ o.pixelX + GRID_SIZE / 2 ∧ o.pixelX + GRID_SIZE / 2 ≤ e) ∧
          o.hasCollided = false ∧ o.hasBeenAvoided = false
      · simp only [pressGo, if_pos h, if_pos h2]
        refine ⟨le_trans ?_ (ih _).1, fun hd => (ih _).2 ?_⟩
        · show acc.score ≤ addPoints acc.score COLLISION_POINTS_GAINED
          simp only [addPoints, COLLISION_POINTS_GAINED]
          omega
        · show (100 : ℤ) ∣ addPoints acc.score COLLISION_POINTS_GAINED
          simp only [addPoints, COLLISION_POINTS_GAINED]
          exact dvd_add hd (dvd_refl 100)
      · simp only [pressGo, if_pos h, if_neg h2]
        refine ⟨le_trans ?_ (ih _).1, fun hd => (ih _).2 ?_⟩
        · show acc.score ≤ addPoints acc.score COLLISION_POINTS_GAINED
          simp only [addPoints, COLLISION_POINTS_GAINED]
          omega
        · show (100 : ℤ) ∣ addPoints acc.score COLLISION_POINTS_GAINED
          simp only [addPoints, COLLISION_POINTS_GAINED]
          exact dvd_add hd (dvd_refl 100)
      · simp only [pressGo, if_neg h, if_pos h2]
        exact ih _
      · simp only [pressGo, if_neg h, if_neg h2]
        exact ih _

/-- The predicate under which an obstacle sets `hasObstacleInOverlay`. -/
def overlayChk (s e : ℚ) (o : Obstacle) : Bool :=
  decide ((s ≤ o.pixelX + GRID_SIZE / 2 ∧ o.pixelX + GRID_SIZE / 2 ≤ e) ∧
    o.hasCollided = false ∧ o.hasBeenAvoided = false)

/-- When no obstacle inside the window matches the pressed staff lines, the
scan marks nothing: it only records whether some live obstacle sits in the
window. -/
theorem pressGo_no_hit (gridYs : List ℚ) (s e : ℚ) (acc : PressAcc) (l : List Obstacle)
    (h : ∀ o ∈ l, (s ≤ o.pixelX + GRID_SIZE / 2 ∧ o.pixelX + GRID_SIZE / 2 ≤ e) →
      ¬ ∃ g ∈ gridYs, |g - toFixed1 (o.pixelY / GRID_SIZE)| < 1/10) :
    pressGo gridYs s e acc l =
      { acc with
        obstacles := acc.obstacles ++ l,
        hasObstacleInOverlay := acc.hasObstacleInOverlay || l.any (overlayChk s e) } := by
  induction l generalizing acc with
  | nil => simp [pressGo]
  | cons o rest ih =>
      have hhit : ¬((∃ g ∈ gridYs, |g - toFixed1 (o.pixelY / GRID_SIZE)| < 1/10) ∧
          (s ≤ o.pixelX + GRID_SIZE / 2 ∧ o.pixelX + GRID_SIZE / 2 ≤ e) ∧
          o.hasCollided = false) := by
        rintro ⟨hy, hw, -⟩
        exact h o (List.mem_cons_self o rest) hw hy
      have hrest : ∀ o' ∈ rest,
          (s ≤ o'.pixelX + GRID_SIZE / 2 ∧ o'.pixelX + GRID_SIZE / 2 ≤ e) →
          ¬ ∃ g ∈ gridYs, |g - toFixed1 (o'.pixelY / GRID_SIZE)| < 1/10 :=
        fun o' ho' => h o' (List.mem_cons_of_mem _ ho')
      by_cases h2 : (s ≤ o.pixelX + GRID_SIZE / 2 ∧ o.pixelX + GRID_SIZE / 2 ≤ e) ∧
          o.hasCollided = false ∧ o.hasBeenAvoided = false
      · simp only [pressGo, if_neg hhit, if_pos h2]
        rw [ih _ hrest]
        simp [overlayChk, h2]
      · simp only [pressGo, if_neg hhit, if_neg h2]
        rw [ih _ hrest]
        simp [overlayChk, h2]

/-! ## Flag monotonicity: the terminal flags are never cleared -/

/-- `o'` keeps every terminal flag already set on `o`. -/
def FlagMono (o o' : Obstacle) : Prop :=
  (o.hasBeenAvoided = true → o'.hasBeenAvoided = true) ∧
  (o.hasCollided = true → o'.hasCollided = true)

theorem flagMono_refl (o : Obstacle) : FlagMono o o := ⟨id, id⟩

theorem flagMono_trans {a b c : Obstacle} (h1 : FlagMono a b) (h2 : FlagMono b c) :
    FlagMono a c :=
  ⟨fun h => h2.1 (h1.1 h), fun h => h2.2 (h1.2 h)⟩

theorem flagMono_moveFade (delta : ℚ) (o : Obstacle) : FlagMono o (moveFade delta o) :=
  ⟨id, id⟩

theorem flagMono_missMark (os : ℚ) (o : Obstacle) : FlagMono o (missMark os o) := by
  unfold missMark
  split
  · exact ⟨fun _ => rfl, fun h => h⟩
  · exact flagMono_refl o

theorem flagMono_collideMark (px py : ℚ) (o : Obstacle) :
    FlagMono o (collideMark px py o) := by
  unfold collideMark
  split
  · exact ⟨fun h => h, fun _ => rfl⟩
  · exact flagMono_refl o

theorem flagMono_pressMark (gridYs : List ℚ) (s e : ℚ) (o : Obstacle) :
    FlagMono o (pressMark gridYs s e o) := by
  unfold pressMark
  split
  · exact ⟨fun h => h, fun _ => rfl⟩
  · exact flagMono_refl o

theorem forall₂_flagMono_map (f : Obstacle → Obstacle) (hf : ∀ o, FlagMono o (f o)) :
    ∀ l : List Obstacle, List.Forall₂ FlagMono l (l.map f)
  | [] => List.Forall₂.nil
  | o :: rest => List.Forall₂.cons (hf o) (forall₂_flagMono_map f hf rest)

/-! ## Cleanup lemmas -/

theorem cleanup_sublist (l : List Obstacle) : (cleanupObstacles l).Sublist l :=
  List.filter_sublist l

theorem cleanup_map (f : Obstacle → Obstacle) (l : List Obstacle) :
    cleanupObstacles (l.map f) = (l.filter fun o => !shouldRemove (f o)).map f := by
  unfold cleanupObstacles
  rw [List.filter_map]
  rfl

theorem mem_cleanup {o : Obstacle} {l : List Obstacle} (h : o ∈ cleanupObstacles l) :
    o ∈ l :=
  (cleanup_sublist l).mem h

/-! ## Spawner characterization -/

theorem stepSpawn_snd (delta : ℚ) (randIdx : Fin 9) (d : ℤ) (gw : ℚ) (s : Spawner)
    (l : List Obstacle) :
    (stepSpawn delta randIdx d gw s l).2 = l ∨
    (stepSpawn delta randIdx d gw s l).2 =
      l ++ [obstacleGenerator gw ((5 + (randIdx : ℕ) * (1/2)) * GRID_SIZE)
        (some (Spawner.getNextImage { s with timeSinceLastSpawn := 0 }).1)
        (getObstacleSpeed d)] := by
  unfold stepSpawn
  by_cases h : getSpawnInterval d ≤ s.timeSinceLastSpawn + delta
  · right
    simp only [if_pos h]
  · left
    simp only [if_neg h]

/-! ## The obstacle pipeline of one `update` step -/

theorem update_obstacles (delta : ℚ) (randIdx : Fin 9) (w : World) :
    (update delta randIdx w).obstacles =
      List.map
        (collideMark
          ((stepMovement delta w.movement w.player).2.getPixelX
            (stepMovement delta w.movement w.player).1)
          ((stepMovement delta w.movement w.player).2.getPixelY
            (stepMovement delta w.movement w.player).1))
        (cleanupObstacles
          (List.map (missMark overlayStartX)
            (List.map (moveFade delta)
              (stepSpawn delta randIdx (stepGState delta w.gameState).difficulty
                w.gameWidth w.spawner w.obstacles).2))) := by
  show (collidePhase delta randIdx w).obstacles = _
  unfold collidePhase
  rw [collideGo_obstacles]
  unfold missPhase
  rw [missGo_obstacles]
  simp

/-! ## Interpolation getters when no move is in flight -/

theorem getPixelX_not_moving {p : Player} {m : Movement} (h : m.isMoving = false) :
    p.getPixelX m = p.pixelX := by
  unfold Player.getPixelX
  rw [h]

theorem getPixelY_not_moving {p : Player} {m : Movement} (h : m.isMoving = false) :
    p.getPixelY m = p.pixelY := by
  unfold Player.getPixelY
  rw [h]

theorem stepMovement_not_moving {delta : ℚ} {m : Movement} {p : Player}
    (h : m.isMoving = false) : stepMovement delta m p = (m, p) := by
  unfold stepMovement
  rw [if_neg (by simp [h])]

/-! ## The per-obstacle invariant and its preservation -/

/-- Every obstacle in a reachable pool: non-negative speed, the two terminal
flags never both set, and an avoided obstacle lies strictly left of the hit
window (its right edge has passed `overlayStartX`). -/
def ObsInv (o : Obstacle) : Prop :=
  0 ≤ o.speed ∧
  ¬(o.hasBeenAvoided = true ∧ o.hasCollided = true) ∧
  (o.hasBeenAvoided = true → o.pixelX + GRID_SIZE < overlayStartX)

theorem obsInv_moveFade {delta : ℚ} {o : Obstacle} (hd : 0 ≤ delta) (h : ObsInv o) :
    ObsInv (moveFade delta o) := by
  obtain ⟨hs, hm, hp⟩ := h
  refine ⟨hs, hm, fun ha => ?_⟩
  have h1 : 0 ≤ o.speed * delta := mul_nonneg hs hd
  calc (moveFade delta o).pixelX + GRID_SIZE
      = o.pixelX - o.speed * delta + GRID_SIZE := rfl
    _ ≤ o.pixelX + GRID_SIZE := by linarith
    _ < overlayStartX := hp ha

theorem obsInv_missMark {o : Obstacle} (h : ObsInv o) :
    ObsInv (missMark overlayStartX o) := by
  by_cases hc : o.pixelX + GRID_SIZE < overlayStartX ∧ o.hasBeenAvoided = false ∧
    o.hasCollided = false
  · unfold missMark
    rw [if_pos hc]
    exact ⟨h.1, by simp [hc.2.2], fun _ => hc.1⟩
  · unfold missMark
    rw [if_neg hc]
    exact h

theorem obsInv_collideMark {py : ℚ} {o : Obstacle} (h : ObsInv o) :
    ObsInv (collideMark (PLAYER_INITIAL_GRID_X * GRID_SIZE) py o) := by
  by_cases hc : (|PLAYER_INITIAL_GRID_X * GRID_SIZE + PLAYER_SIZE / 2 -
      (o.pixelX + GRID_SIZE / 2)| < PLAYER_SIZE ∧
      toFixed1 (py / GRID_SIZE) = toFixed1 (o.pixelY / GRID_SIZE)) ∧
      o.hasCollided = false
  · unfold collideMark
    rw [if_pos hc]
    refine ⟨h.1, ?_, fun ha => h.2.2 ha⟩
    rintro ⟨ha, -⟩
    have hpos := h.2.2 ha
    have habs := abs_lt.1 hc.1.1
    norm_num [GRID_SIZE, PLAYER_SIZE, PLAYER_INITIAL_GRID_X, overlayStartX,
      trebleClefX, trebleClefWidth] at hpos habs
    linarith [habs.1, habs.2]
  · unfold collideMark
    rw [if_neg hc]
    exact h

theorem obsInv_pressMark {gridYs : List ℚ} {e : ℚ} {o : Obstacle} (h : ObsInv o) :
    ObsInv (pressMark gridYs overlayStartX e o) := by
  by_cases hc : (∃ g ∈ gridYs, |g - toFixed1 (o.pixelY / GRID_SIZE)| < 1/10) ∧
      (overlayStartX ≤ o.pixelX + GRID_SIZE / 2 ∧ o.pixelX + GRID_SIZE / 2 ≤ e) ∧
      o.hasCollided = false
  · unfold pressMark
    rw [if_pos hc]
    refine ⟨h.1, ?_, fun ha => h.2.2 ha⟩
    rintro ⟨ha, -⟩
    have hpos := h.2.2 ha
    have hw := hc.2.1.1
    norm_num [GRID_SIZE, overlayStartX, trebleClefX, trebleClefWidth] at hpos hw
    linarith
  · unfold pressMark
    rw [if_neg hc]
    exact h

theorem obsInv_fresh {gw y : ℚ} {img : Option String} {d : ℤ} (hd : 1 ≤ d) :
    ObsInv (obstacleGenerator gw y img (getObstacleSpeed d)) := by
  refine ⟨?_, by simp [obstacleGenerator], by simp [obstacleGenerator]⟩
  show (0:ℚ) ≤ getObstacleSpeed d
  unfold getObstacleSpeed
  have h1 : (1:ℚ) ≤ (d : ℚ) := by exact_mod_cast hd
  linarith

/-! ## Difficulty and game-state bookkeeping -/

theorem calculateDifficulty_ge_one {e : ℚ} (he : 0 ≤ e) :
    1 ≤ calculateDifficulty e := by
  unfold calculateDifficulty
  have h0 : (0:ℤ) ≤ ⌊e / 30⌋ := Int.floor_nonneg.2 (by positivity)
  exact le_min (by norm_num) (by omega)

theorem stepGState_inv {delta : ℚ} {gs : GState} (hd : 0 ≤ delta)
    (he : 0 ≤ gs.elapsedTime) (hdif : 1 ≤ gs.difficulty) :
    0 ≤ (stepGState delta gs).elapsedTime ∧ 1 ≤ (stepGState delta gs).difficulty := by
  unfold stepGState
  split
  · constructor
    · show 0 ≤ gs.elapsedTime + delta
      linarith
    · exact calculateDifficulty_ge_one (by linarith)
  · exact ⟨he, hdif⟩

/-! ## The reachable-state invariant -/

/-- The global invariant maintained by every well-formed event.  In this
variant of the game nothing ever starts a movement interpolation, so the
player never leaves its initial column. -/
def Inv (w : World) : Prop :=
  w.movement.isMoving = false ∧
  w.player.pixelX = PLAYER_INITIAL_GRID_X * GRID_SIZE ∧
  0 ≤ w.gameState.elapsedTime ∧
  1 ≤ w.gameState.difficulty ∧
  0 ≤ w.lives.current ∧ w.lives.current ≤ w.lives.max ∧ 0 ≤ w.lives.max ∧
  0 ≤ w.score ∧ (100 : ℤ) ∣ w.score ∧
  ∀ o ∈ w.obstacles, ObsInv o

theorem update_inv {delta : ℚ} {randIdx : Fin 9} {w : World} (hd : 0 ≤ delta)
    (h : Inv w) : Inv (update delta randIdx w) := by
  obtain ⟨hmov, hpx, he, hdif, hl0, hlm, hm0, hs0, hsd, hobs⟩ := h
  have hmp : stepMovement delta w.movement w.player = (w.movement, w.player) :=
    stepMovement_not_moving hmov
  have hgs := stepGState_inv hd he hdif
  have hml := missGo_lives w.player.pixelX overlayStartX
    { obstacles := [], lives := w.lives,
      isGameOver := (stepGState delta w.gameState).isGameOver,
      audioLog := w.audioLog }
    (((stepSpawn delta randIdx (stepGState delta w.gameState).difficulty
        w.gameWidth w.spawner w.obstacles).2).map (moveFade delta))
  have hcs := collideGo_score
    ((stepMovement delta w.movement w.player).2.getPixelX
      (stepMovement delta w.movement w.player).1)
    ((stepMovement delta w.movement w.player).2.getPixelY
      (stepMovement delta w.movement w.player).1)
    { obstacles := [], score := w.score, playerAnim := w.playerAnim,
      noteDisplay := w.noteDisplay, hitZoneFlash := w.hitZoneFlash,
      audioLog := (missPhase delta randIdx w).audioLog }
    (cleanupObstacles (missPhase delta randIdx w).obstacles)
  refine ⟨?_, ?_, ?_, ?_, ?_, ?_, ?_, ?_, ?_, ?_⟩
  · show ((stepMovement delta w.movement w.player).1).isMoving = false
    rw [hmp]
    exact hmov
  · show ((stepMovement delta w.movement w.player).2).pixelX = _
    rw [hmp]
    exact hpx
  · exact hgs.1
  · exact hgs.2
  · show 0 ≤ (missPhase delta randIdx w).lives.current
    exact hml.2.2 hl0
  · show (missPhase delta randIdx w).lives.current ≤ (missPhase delta randIdx w).lives.max
    unfold missPhase
    rw [hml.1]
    exact le_trans hml.2.1 hlm
  · show 0 ≤ (missPhase delta randIdx w).lives.max
    unfold missPhase
    rw [hml.1]
    exact hm0
  · show 0 ≤ (collidePhase delta randIdx w).score
    exact le_trans hs0 (by exact hcs.1)
  · show (100:ℤ) ∣ (collidePhase delta randIdx w).score
    exact hcs.2 hsd
  · intro o' ho'
    rw [show (update delta randIdx w).obstacles = (collidePhase delta randIdx w).obstacles
      from rfl] at ho'
    unfold collidePhase at ho'
    rw [collideGo_obstacles] at ho'
    simp only [List.nil_append, List.mem_map] at ho'
    obtain ⟨o2, ho2, rfl⟩ := ho'
    have ho2' := mem_cleanup ho2
    unfold missPhase at ho2'
    rw [missGo_obstacles] at ho2'
    simp only [List.nil_append, List.mem_map] at ho2'
    obtain ⟨o1, ho1, rfl⟩ := ho2'
    obtain ⟨o0, ho0, rfl⟩ := ho1
    have hbase : ObsInv o0 := by
      rcases stepSpawn_snd delta randIdx (stepGState delta w.gameState).difficulty
          w.gameWidth w.spawner w.obstacles with hsp | hsp
      · rw [hsp] at ho0
        exact hobs o0 ho0
      · rw [hsp] at ho0
        rcases List.mem_append.1 ho0 with hmem | hmem
        · exact hobs o0 hmem
        · rcases List.mem_singleton.1 hmem with rfl
          exact obsInv_fresh hgs.2
    have h1 : ObsInv (moveFade delta o0) := obsInv_moveFade hd hbase
    have h2 : ObsInv (missMark overlayStartX (moveFade delta o0)) := obsInv_missMark h1
    have hpxy : (stepMovement delta w.movement w.player).2.getPixelX
        (stepMovement delta w.movement w.player).1 = PLAYER_INITIAL_GRID_X * GRID_SIZE := by
      rw [hmp]
      show w.player.getPixelX w.movement = _
      rw [getPixelX_not_moving hmov]
      exact hpx
    rw [hpxy]
    exact obsInv_collideMark h2

/-! ## Behaviour of the key-press handlers with respect to the invariant -/

theorem handleNoteKeyPress_parts (gridYs : List ℚ) (w : World) :
    (handleNoteKeyPress gridYs w).obstacles =
      w.obstacles.map (pressMark gridYs overlayStartX
        (overlayStartX + overlayWidth w.player.noteValue)) ∧
    ((handleNoteKeyPress gridYs w).lives = w.lives ∨
      (handleNoteKeyPress gridYs w).lives = (w.lives.loseLife).1) ∧
    w.score ≤ (handleNoteKeyPress gridYs w).score ∧
    ((100:ℤ) ∣ w.score → (100:ℤ) ∣ (handleNoteKeyPress gridYs w).score) ∧
    (handleNoteKeyPress gridYs w).movement = w.movement ∧
    (handleNoteKeyPress gridYs w).player = w.player ∧
    (handleNoteKeyPress gridYs w).gameState.elapsedTime = w.gameState.elapsedTime ∧
    (handleNoteKeyPress gridYs w).gameState.difficulty = w.gameState.difficulty := by
  have hpo := pressGo_obstacles gridYs overlayStartX
    (overlayStartX + overlayWidth w.player.noteValue)
    { obstacles := [], score := w.score, playerAnim := w.playerAnim,
      noteDisplay := w.noteDisplay, audioLog := w.audioLog,
      hitCorrectNote := false, hasObstacleInOverlay := false } w.obstacles
  have hps := pressGo_score gridYs overlayStartX
    (overlayStartX + overlayWidth w.player.noteValue)
    { obstacles := [], score := w.score, playerAnim := w.playerAnim,
      noteDisplay := w.noteDisplay, audioLog := w.audioLog,
      hitCorrectNote := false, hasObstacleInOverlay := false } w.obstacles
  simp only [handleNoteKeyPress]
  split
  · refine ⟨by simpa using hpo, Or.inr rfl, by simpa using hps.1,
      fun hd => by simpa using hps.2 hd, rfl, rfl, ?_, ?_⟩
    · split <;> rfl
    · split <;> rfl
  · exact ⟨by simpa using hpo, Or.inl rfl, by simpa using hps.1,
      fun hd => by simpa using hps.2 hd, rfl, rfl, rfl, rfl⟩

theorem handleNoteKeyPress_inv {gridYs : List ℚ} {w : World} (h : Inv w) :
    Inv (handleNoteKeyPress gridYs w) := by
  obtain ⟨hmov, hpx, he, hdif, hl0, hlm, hm0, hs0, hsd, hobs⟩ := h
  obtain ⟨ho, hl, hs1, hs2, hmv, hpl, hge, hgd⟩ := handleNoteKeyPress_parts gridYs w
  refine ⟨?_, ?_, ?_, ?_, ?_, ?_, ?_, ?_, ?_, ?_⟩
  · rw [hmv]
    exact hmov
  · rw [hpl]
    exact hpx
  · rw [hge]
    exact he
  · rw [hgd]
    exact hdif
  · rcases hl with h' | h' <;> rw [h']
    · exact hl0
    · exact loseLife_fst_nonneg _ hl0
  · rcases hl with h' | h' <;> rw [h']
    · exact hlm
    · rw [loseLife_fst_max]
      exact le_trans (loseLife_fst_current_le _) hlm
  · rcases hl with h' | h' <;> rw [h']
    · exact hm0
    · rw [loseLife_fst_max]
      exact hm0
  · exact le_trans hs0 hs1
  · exact hs2 hsd
  · intro o' ho'
    rw [ho] at ho'
    simp only [List.mem_map] at ho'
    obtain ⟨o, hmem, rfl⟩ := ho'
    exact obsInv_pressMark (hobs o hmem)

theorem restartGame_inv {w : World} (hm : 0 ≤ w.lives.max) : Inv (restartGame w) := by
  refine ⟨rfl, rfl, le_refl 0, le_refl 1, hm, le_refl _, hm, le_refl 0, dvd_zero 100, ?_⟩
  intro o ho
  exact absurd ho (List.not_mem_nil o)

theorem handleKeyDown_inv {key : String} {w : World} (h : Inv w) :
    Inv (handleKeyDown key w) := by
  unfold handleKeyDown
  split
  · exact restartGame_inv h.2.2.2.2.2.2.1
  · split
    · exact h
    · split
      · next gridYs _ =>
          apply handleNoteKeyPress_inv
          obtain ⟨hmov, hpx, he, hdif, hl0, hlm, hm0, hs0, hsd, hobs⟩ := h
          exact ⟨hmov, hpx, he, hdif, hl0, hlm, hm0, hs0, hsd, hobs⟩
      · exact h

theorem handleKeyUp_inv {key : String} {w : World} (h : Inv w) :
    Inv (handleKeyUp key w) := by
  unfold handleKeyUp
  split
  · exact h
  · split
    · obtain ⟨hmov, hpx, he, hdif, hl0, hlm, hm0, hs0, hsd, hobs⟩ := h
      exact ⟨hmov, hpx, he, hdif, hl0, hlm, hm0, hs0, hsd, hobs⟩
    · exact h

theorem startClick_inv {w : World} (h : Inv w) : Inv (startClick w) := by
  unfold startClick
  split
  · obtain ⟨hmov, hpx, he, hdif, hl0, hlm, hm0, hs0, hsd, hobs⟩ := h
    exact ⟨hmov, hpx, he, hdif, hl0, hlm, hm0, hs0, hsd, hobs⟩
  · exact h

theorem selectNote_inv {i : Fin 5} {w : World} (h : Inv w) : Inv (selectNote i w) := by
  obtain ⟨hmov, hpx, he, hdif, hl0, hlm, hm0, hs0, hsd, hobs⟩ := h
  simp only [selectNote]
  split
  · split
    · exact ⟨hmov, hpx, he, hdif, hl0, hlm, hm0, hs0, hsd, hobs⟩
    · exact ⟨hmov, hpx, he, hdif, hl0, hlm, hm0, hs0, hsd, hobs⟩
  · exact ⟨hmov, hpx, he, hdif, hl0, hlm, hm0, hs0, hsd, hobs⟩

theorem applyEvent_inv {e : GEvent} {w : World} (hwf : e.wfB = true) (h : Inv w) :
    Inv (applyEvent e w) := by
  cases e with
  | frame delta randIdx =>
      simp only [applyEvent]
      split
      · refine update_inv ?_ h
        have hd : 0 ≤ delta := by simpa [GEvent.wfB] using hwf
        exact le_min hd (by norm_num)
      · exact h
  | keyDown key => exact handleKeyDown_inv h
  | keyUp key => exact handleKeyUp_inv h
  | clickStart => exact startClick_inv h
  | clickNote i => exact selectNote_inv h

theorem init_inv (gw : ℚ) : Inv (World.init gw) := by
  refine ⟨rfl, rfl, le_refl 0, le_refl 1, ?_, ?_, ?_, le_refl 0, dvd_zero 100, ?_⟩
  · show (0:ℤ) ≤ 5
    norm_num
  · exact le_refl _
  · show (0:ℤ) ≤ 5
    norm_num
  · intro o ho
    exact absurd ho (List.not_mem_nil o)

theorem foldl_inv (es : List GEvent) (w : World) (hwf : ∀ e ∈ es, e.wfB = true)
    (h : Inv w) : Inv (es.foldl (fun w e => applyEvent e w) w) := by
  induction es generalizing w with
  | nil => exact h
  | cons e rest ih =>
      exact ih _ (fun e' he' => hwf e' (List.mem_cons_of_mem _ he'))
        (applyEvent_inv (hwf e (List.mem_cons_self _ _)) h)

theorem replay_inv (gw : ℚ) {es : List GEvent} (hwf : EventsWF es) :
    Inv (replay gw es) :=
  foldl_inv es _ hwf (init_inv gw)

/-! ## Monotonicity of lives and score under single events -/

theorem update_lives_le (delta : ℚ) (randIdx : Fin 9) (w : World) :
    (update delta randIdx w).lives.current ≤ w.lives.current :=
  (missGo_lives w.player.pixelX overlayStartX
    { obstacles := [], lives := w.lives,
      isGameOver := (stepGState delta w.gameState).isGameOver,
      audioLog := w.audioLog }
    (((stepSpawn delta randIdx (stepGState delta w.gameState).difficulty
        w.gameWidth w.spawner w.obstacles).2).map (moveFade delta))).2.1

theorem update_score_ge (delta : ℚ) (randIdx : Fin 9) (w : World) :
    w.score ≤ (update delta randIdx w).score :=
  (collideGo_score
    ((stepMovement delta w.movement w.player).2.getPixelX
      (stepMovement delta w.movement w.player).1)
    ((stepMovement delta w.movement w.player).2.getPixelY
      (stepMovement delta w.movement w.player).1)
    { obstacles := [], score := w.score, playerAnim := w.playerAnim,
      noteDisplay := w.noteDisplay, hitZoneFlash := w.hitZoneFlash,
      audioLog := (missPhase delta randIdx w).audioLog }
    (cleanupObstacles (missPhase delta randIdx w).obstacles)).1

theorem applyEvent_lives (e : GEvent) (w : World) :
    (applyEvent e w).lives.current ≤ w.lives.current ∨
    (applyEvent e w).lives.current = w.lives.max := by
  cases e with
  | frame delta randIdx =>
      simp only [applyEvent]
      split
      · exact Or.inl (update_lives_le _ _ _)
      · exact Or.inl (le_refl _)
  | keyDown key =>
      simp only [applyEvent]
      unfold handleKeyDown
      split
      · exact Or.inr rfl
      · split
        · exact Or.inl (le_refl _)
        · split
          · next gridYs _ =>
              rcases (handleNoteKeyPress_parts gridYs _).2.1 with h' | h'
              · rw [h']
                exact Or.inl (le_refl _)
              · rw [h']
                exact Or.inl (loseLife_fst_current_le _)
          · exact Or.inl (le_refl _)
  | keyUp key =>
      simp only [applyEvent]
      unfold handleKeyUp
      split
      · exact Or.inl (le_refl _)
      · split
        · exact Or.inl (le_refl _)
        · exact Or.inl (le_refl _)
  | clickStart =>
      simp only [applyEvent]
      unfold startClick
      split
      · exact Or.inl (le_refl _)
      · exact Or.inl (le_refl _)
  | clickNote i =>
      simp only [applyEvent, selectNote]
      split
      · split
        · exact Or.inl (le_refl _)
        · exact Or.inl (le_refl _)
      · exact Or.inl (le_refl _)

/-! ## Flag monotonicity of whole events -/

theorem forall₂_flagMono_refl (l : List Obstacle) : List.Forall₂ FlagMono l l :=
  List.forall₂_same.2 (fun o _ => flagMono_refl o)

/-- One event transforms the obstacle pool flag-monotonically: the output
pool is a pointwise flag-monotone image of a sublist of the input pool
followed by freshly spawned obstacles whose flags both start false.  In
particular a set `avoided`/`collided` flag is never cleared by any event. -/
def StepFlagsMono (e : GEvent) (w : World) : Prop :=
  ∃ base extra, base.Sublist w.obstacles ∧
    (∀ o ∈ extra, o.hasBeenAvoided = false ∧ o.hasCollided = false) ∧
    List.Forall₂ FlagMono (base ++ extra) (applyEvent e w).obstacles

theorem update_flags_mono (delta : ℚ) (randIdx : Fin 9) (w : World) :
    ∃ base extra, base.Sublist w.obstacles ∧
      (∀ o ∈ extra, o.hasBeenAvoided = false ∧ o.hasCollided = false) ∧
      List.Forall₂ FlagMono (base ++ extra) (update delta randIdx w).obstacles := by
  have hout := update_obstacles delta randIdx w
  rw [List.map_map, cleanup_map, List.map_map] at hout
  have hG : ∀ o, FlagMono o
      (((collideMark
          ((stepMovement delta w.movement w.player).2.getPixelX
            (stepMovement delta w.movement w.player).1)
          ((stepMovement delta w.movement w.player).2.getPixelY
            (stepMovement delta w.movement w.player).1)) ∘
        (missMark overlayStartX ∘ moveFade delta)) o) := by
    intro o
    exact flagMono_trans (flagMono_moveFade delta o)
      (flagMono_trans (flagMono_missMark _ _) (flagMono_collideMark _ _ _))
  rcases stepSpawn_snd delta randIdx (stepGState delta w.gameState).difficulty
      w.gameWidth w.spawner w.obstacles with hsp | hsp
  · rw [hsp] at hout
    refine ⟨List.filter (fun o => !shouldRemove ((missMark overlayStartX ∘ moveFade delta) o))
      w.obstacles, [], List.filter_sublist w.obstacles, by simp, ?_⟩
    rw [List.append_nil, hout]
    exact forall₂_flagMono_map _ hG _
  · rw [hsp, List.filter_append] at hout
    refine ⟨List.filter (fun o => !shouldRemove ((missMark overlayStartX ∘ moveFade delta) o))
        w.obstacles,
      List.filter (fun o => !shouldRemove ((missMark overlayStartX ∘ moveFade delta) o))
        [obstacleGenerator w.gameWidth ((5 + (randIdx : ℕ) * (1/2)) * GRID_SIZE)
          (some (Spawner.getNextImage { w.spawner with timeSinceLastSpawn := 0 }).1)
          (getObstacleSpeed (stepGState delta w.gameState).difficulty)],
      List.filter_sublist w.obstacles, ?_, ?_⟩
    · intro o ho
      have := List.mem_filter.1 ho
      rcases List.mem_singleton.1 this.1 with rfl
      exact ⟨rfl, rfl⟩
    · rw [hout, List.map_append]
      exact List.rel_append (forall₂_flagMono_map _ hG _) (forall₂_flagMono_map _ hG _)

theorem stepFlagsMono_all (e : GEvent) (w : World) : StepFlagsMono e w := by
  cases e with
  | frame delta randIdx =>
      unfold StepFlagsMono
      simp only [applyEvent]
      split
      · exact update_flags_mono _ _ _
      · exact ⟨w.obstacles, [], List.Sublist.refl _, by simp,
          by rw [List.append_nil]; exact forall₂_flagMono_refl _⟩
  | keyDown key =>
      unfold StepFlagsMono
      simp only [applyEvent]
      unfold handleKeyDown
      split
      · exact ⟨[], [], List.nil_sublist _, by simp, List.Forall₂.nil⟩
      · split
        · exact ⟨w.obstacles, [], List.Sublist.refl _, by simp,
            by rw [List.append_nil]; exact forall₂_flagMono_refl _⟩
        · split
          · next gridYs _ =>
              refine ⟨w.obstacles, [], List.Sublist.refl _, by simp, ?_⟩
              rw [List.append_nil, (handleNoteKeyPress_parts gridYs _).1]
              exact forall₂_flagMono_map _ (fun o => flagMono_pressMark _ _ _ o) _
          · exact ⟨w.obstacles, [], List.Sublist.refl _, by simp,
              by rw [List.append_nil]; exact forall₂_flagMono_refl _⟩
  | keyUp key =>
      unfold StepFlagsMono
      simp only [applyEvent]
      unfold handleKeyUp
      refine ⟨w.obstacles, [], List.Sublist.refl _, by simp, ?_⟩
      rw [List.append_nil]
      split
      · exact forall₂_flagMono_refl _
      · split
        · exact forall₂_flagMono_refl _
        · exact forall₂_flagMono_refl _
  | clickStart =>
      unfold StepFlagsMono
      simp only [applyEvent]
      unfold startClick
      refine ⟨w.obstacles, [], List.Sublist.refl _, by simp, ?_⟩
      rw [List.append_nil]
      split
      · exact forall₂_flagMono_refl _
      · exact forall₂_flagMono_refl _
  | clickNote i =>
      unfold StepFlagsMono
      refine ⟨w.obstacles, [], List.Sublist.refl _, by simp, ?_⟩
      rw [List.append_nil]
      simp only [applyEvent, selectNote]
      split
      · split
        · exact forall₂_flagMono_refl _
        · exact forall₂_flagMono_refl _
      · exact forall₂_flagMono_refl _

theorem applyEvent_score (e : GEvent) (w : World) :
    (applyEvent e w).score = 0 ∨ w.score ≤ (applyEvent e w).score := by
  cases e with
  | frame delta randIdx =>
      simp only [applyEvent]
      split
      · exact Or.inr (update_score_ge _ _ _)
      · exact Or.inr (le_refl _)
  | keyDown key =>
      simp only [applyEvent]
      unfold handleKeyDown
      split
      · exact Or.inl rfl
      · split
        · exact Or.inr (le_refl _)
        · split
          · next gridYs _ =>
              exact Or.inr (handleNoteKeyPress_parts gridYs _).2.2.1
          · exact Or.inr (le_refl _)
  | keyUp key =>
      simp only [applyEvent]
      unfold handleKeyUp
      split
      · exact Or.inr (le_refl _)
      · split
        · exact Or.inr (le_refl _)
        · exact Or.inr (le_refl _)
  | clickStart =>
      simp only [applyEvent]
      unfold startClick
      split
      · exact Or.inr (le_refl _)
      · exact Or.inr (le_refl _)
  | clickNote i =>
      simp only [applyEvent, selectNote]
      split
      · split
        · exact Or.inr (le_refl _)
        · exact Or.inr (le_refl _)
      · exact Or.inr (le_refl _)

/-- When no obstacle collides, the passive collision scan is the identity
on every accumulator component except appending the untouched pool. -/
theorem collideGo_no_hit (px py : ℚ) (acc : CollideAcc) (l : List Obstacle)
    (h : ∀ o ∈ l, ¬((|px + PLAYER_SIZE / 2 - (o.pixelX + GRID_SIZE / 2)| < PLAYER_SIZE ∧
      toFixed1 (py / GRID_SIZE) = toFixed1 (o.pixelY / GRID_SIZE)) ∧
      o.hasCollided = false)) :
    collideGo px py acc l = { acc with obstacles := acc.obstacles ++ l } := by
  induction l generalizing acc with
  | nil => simp [collideGo]
  | cons o rest ih =>
      have hrest : ∀ o' ∈ rest, ¬((|px + PLAYER_SIZE / 2 - (o'.pixelX + GRID_SIZE / 2)| <
          PLAYER_SIZE ∧ toFixed1 (py / GRID_SIZE) = toFixed1 (o'.pixelY / GRID_SIZE)) ∧
          o'.hasCollided = false) :=
        fun o' ho' => h o' (List.mem_cons_of_mem _ ho')
      simp only [collideGo, if_neg (h o (List.mem_cons_self o rest))]
      rw [ih _ hrest]
      simp

/-- Reduction of `handleKeyDown` on a mapped note letter outside game over:
it sets the held flag and some target line, then runs the resolution. -/
theorem handleKeyDown_mapped {key : String} {w : World} {gridYs : List ℚ}
    (h1 : ¬(key = "r" ∧ w.gameState.isGameOver = true))
    (h2 : ¬w.gameState.isGameOver = true)
    (h3 : NOTE_KEY_MAP key = some gridYs) :
    ∃ t : ℚ, handleKeyDown key w = handleNoteKeyPress gridYs
      { w with gameState := { w.gameState with
                              isNoteKeyPressed := true,
                              currentNoteGridY := some t } } := by
  unfold handleKeyDown
  rw [if_neg h1, if_neg h2, h3]
  exact ⟨_, rfl⟩

/-- The resolution on a press that misses: some live obstacle is inside the
hit window, but no obstacle inside the window matches a pressed staff line.
Exactly one `loseLife`, one error-sound call, and a red flash start. -/
theorem hnkp_miss_parts (gridYs : List ℚ) (w : World)
    (hA : ∃ o ∈ w.obstacles, o.hasCollided = false ∧ o.hasBeenAvoided = false ∧
      overlayStartX ≤ o.pixelX + GRID_SIZE / 2 ∧
      o.pixelX + GRID_SIZE / 2 ≤ overlayStartX + overlayWidth w.player.noteValue)
    (hB : ∀ o ∈ w.obstacles,
      (overlayStartX ≤ o.pixelX + GRID_SIZE / 2 ∧
        o.pixelX + GRID_SIZE / 2 ≤ overlayStartX + overlayWidth w.player.noteValue) →
      ¬ ∃ g ∈ gridYs, |g - toFixed1 (o.pixelY / GRID_SIZE)| < 1/10) :
    (handleNoteKeyPress gridYs w).lives = (w.lives.loseLife).1 ∧
    (handleNoteKeyPress gridYs w).score = w.score ∧
    (handleNoteKeyPress gridYs w).audioLog = w.audioLog ++ [AudioCall.errorSound] ∧
    (handleNoteKeyPress gridYs w).hitZoneFlash = w.hitZoneFlash.start FlashColor.red ∧
    (handleNoteKeyPress gridYs w).obstacles = w.obstacles := by
  have hany : w.obstacles.any
      (overlayChk overlayStartX (overlayStartX + overlayWidth w.player.noteValue)) = true := by
    obtain ⟨o, ho, hc, ha, hw1, hw2⟩ := hA
    refine List.any_eq_true.2 ⟨o, ho, ?_⟩
    exact decide_eq_true ⟨⟨hw1, hw2⟩, hc, ha⟩
  simp only [handleNoteKeyPress]
  rw [pressGo_no_hit _ _ _ _ _ hB]
  rw [if_pos]
  · exact ⟨rfl, rfl, rfl, rfl, by simp⟩
  · constructor
    · show (false || _) = true
      rw [Bool.false_or]
      exact hany
    · rfl

/-- The resolution on a press with no obstacle inside the hit window at
all: a complete no-op on score, lives, obstacles, audio and flash. -/
theorem hnkp_noop_parts (gridYs : List ℚ) (w : World)
    (hN : ∀ o ∈ w.obstacles,
      ¬(overlayStartX ≤ o.pixelX + GRID_SIZE / 2 ∧
        o.pixelX + GRID_SIZE / 2 ≤ overlayStartX + overlayWidth w.player.noteValue)) :
    (handleNoteKeyPress gridYs w).score = w.score ∧
    (handleNoteKeyPress gridYs w).lives = w.lives ∧
    (handleNoteKeyPress gridYs w).obstacles = w.obstacles ∧
    (handleNoteKeyPress gridYs w).audioLog = w.audioLog ∧
    (handleNoteKeyPress gridYs w).hitZoneFlash = w.hitZoneFlash := by
  have hB : ∀ o ∈ w.obstacles,
      (overlayStartX ≤ o.pixelX + GRID_SIZE / 2 ∧
        o.pixelX + GRID_SIZE / 2 ≤ overlayStartX + overlayWidth w.player.noteValue) →
      ¬ ∃ g ∈ gridYs, |g - toFixed1 (o.pixelY / GRID_SIZE)| < 1/10 :=
    fun o ho hw => absurd hw (hN o ho)
  have hany : w.obstacles.any
      (overlayChk overlayStartX (overlayStartX + overlayWidth w.player.noteValue)) = false := by
    rw [List.any_eq_false]
    intro o ho
    unfold overlayChk
    simp only [decide_eq_true_eq]
    rintro ⟨hw, -⟩
    exact hN o ho hw
  simp only [handleNoteKeyPress]
  rw [pressGo_no_hit _ _ _ _ _ hB]
  rw [if_neg]
  · exact ⟨rfl, rfl, by simp, rfl, rfl⟩
  · rintro ⟨habs, -⟩
    rw [show ((false || w.obstacles.any (overlayChk overlayStartX
      (overlayStartX + overlayWidth w.player.noteValue))) : Bool) = false
      by rw [Bool.false_or]; exact hany] at habs
    exact Bool.false_ne_true habs

/-- Pointwise evaluation helpers for the per-obstacle marks. -/
theorem missMark_id {os : ℚ} {o : Obstacle}
    (h : ¬(o.pixelX + GRID_SIZE < os ∧ o.hasBeenAvoided = false ∧
      o.hasCollided = false)) : missMark os o = o :=
  if_neg h

theorem missMark_mark {os : ℚ} {o : Obstacle}
    (h : o.pixelX + GRID_SIZE < os ∧ o.hasBeenAvoided = false ∧
      o.hasCollided = false) : missMark os o = { o with hasBeenAvoided := true } :=
  if_pos h

theorem collideMark_id {px py : ℚ} {o : Obstacle}
    (h : ¬((|px + PLAYER_SIZE / 2 - (o.pixelX + GRID_SIZE / 2)| < PLAYER_SIZE ∧
      toFixed1 (py / GRID_SIZE) = toFixed1 (o.pixelY / GRID_SIZE)) ∧
      o.hasCollided = false)) : collideMark px py o = o :=
  if_neg h

theorem stepSpawn_no_spawn {delta : ℚ} {randIdx : Fin 9} {d : ℤ} {gw : ℚ}
    {s : Spawner} {l : List Obstacle}
    (h : ¬getSpawnInterval d ≤ s.timeSinceLastSpawn + delta) :
    (stepSpawn delta randIdx d gw s l).2 = l := by
  unfold stepSpawn
  rw [if_neg h]

theorem getSpawnInterval_ge (d : ℤ) : (4:ℚ)/5 ≤ getSpawnInterval d :=
  le_max_left _ _

theorem fadeUpdate_inactive {f : FadeAnim} (delta : ℚ) (h : f.isAnimating = false) :
    f.update delta = f := by
  unfold FadeAnim.update
  rw [if_neg (by simp [h])]

theorem shouldRemove_off {o : Obstacle} (h : o.pixelX + GRID_SIZE < 0) :
    shouldRemove o = true := by
  unfold shouldRemove
  rw [decide_eq_true h]
  rfl

theorem shouldRemove_keep {o : Obstacle} (h1 : ¬(o.pixelX + GRID_SIZE < 0))
    (h2 : ¬(1 ≤ o.fadeAnim.progress)) : shouldRemove o = false := by
  unfold shouldRemove
  rw [decide_eq_false h1, decide_eq_false h2]
  rfl

theorem missMark_pixelX (os : ℚ) (o : Obstacle) : (missMark os o).pixelX = o.pixelX := by
  unfold missMark
  split <;> rfl

theorem missMark_fade (os : ℚ) (o : Obstacle) : (missMark os o).fadeAnim = o.fadeAnim := by
  unfold missMark
  split <;> rfl

theorem applyEvent_frame_playing {delta : ℚ} {randIdx : Fin 9} {w : World}
    (h1 : w.gameState.hasStarted = true) (h2 : w.gameState.isGameOver = false) :
    applyEvent (GEvent.frame delta randIdx) w = update (min delta (2/125)) randIdx w := by
  simp only [applyEvent]
  rw [if_pos ⟨h1, h2⟩]

theorem missPhase_obstacles (delta : ℚ) (randIdx : Fin 9) (w : World) :
    (missPhase delta randIdx w).obstacles =
      ((stepSpawn delta randIdx (stepGState delta w.gameState).difficulty
          w.gameWidth w.spawner w.obstacles).2.map (moveFade delta)).map
        (missMark overlayStartX) := by
  unfold missPhase
  rw [missGo_obstacles]
  simp

theorem getNoteDuration_half : getNoteDuration "half" = 4/3 := by
  unfold getNoteDuration
  rw [if_neg (by decide), if_pos rfl]
  norm_num [BPM]

/-- The resolution result (pool, lives, score) does not depend on the
`gameState` component of the input world. -/
theorem hnkp_gs_indep (gridYs : List ℚ) (w : World) (gs : GState) :
    (handleNoteKeyPress gridYs { w with gameState := gs }).obstacles =
      (handleNoteKeyPress gridYs w).obstacles ∧
    (handleNoteKeyPress gridYs { w with gameState := gs }).lives =
      (handleNoteKeyPress gridYs w).lives ∧
    (handleNoteKeyPress gridYs { w with gameState := gs }).score =
      (handleNoteKeyPress gridYs w).score := by
  simp only [handleNoteKeyPress]
  by_cases hc : (pressGo gridYs overlayStartX
      (overlayStartX + overlayWidth w.player.noteValue)
      { obstacles := [], score := w.score, playerAnim := w.playerAnim,
        noteDisplay := w.noteDisplay, audioLog := w.audioLog,
        hitCorrectNote := false, hasObstacleInOverlay := false }
      w.obstacles).hasObstacleInOverlay = true ∧
    (pressGo gridYs overlayStartX
      (overlayStartX + overlayWidth w.player.noteValue)
      { obstacles := [], score := w.score, playerAnim := w.playerAnim,
        noteDisplay := w.noteDisplay, audioLog := w.audioLog,
        hitCorrectNote := false, hasObstacleInOverlay := false }
      w.obstacles).hitCorrectNote = false
  · rw [if_pos hc, if_pos hc]
    exact ⟨rfl, rfl, rfl⟩
  · rw [if_neg hc, if_neg hc]
    exact ⟨rfl, rfl, rfl⟩

/-! ## Concrete worlds used to settle the claims -/

/-- A playing world holding a key (held-flag set) with one un-resolved
obstacle on staff line 6.5 inside the hit window. -/
def w1ex : World :=
  { World.init 600 with
    gameState := { GState.init with hasStarted := true, isNoteKeyPressed := true },
    obstacles := [obstacleGenerator 120 208 none 150] }

/-- A game-over world in the middle of a red hit-zone flash. -/
def w2ex : World :=
  { World.init 600 with
    gameState := { GState.init with hasStarted := true, isGameOver := true },
    hitZoneFlash := { isFlashing := true, color := FlashColor.red,
                      progress := 1/10, duration := 3/10 } }

/-- An obstacle fully off the left edge whose fade is mid-flight. -/
def obsFadingOffscreen : Obstacle :=
  { obstacleGenerator (-40) 160 none 150 with
    fadeAnim := { isAnimating := true, progress := 1/2, duration := 1/2 } }

/-- An on-screen obstacle whose fade is mid-flight. -/
def obsOnScreenFading : Obstacle :=
  { obstacleGenerator 100 160 none 150 with
    fadeAnim := { isAnimating := true, progress := 1/2, duration := 1/2 } }

/-- An obstacle that will be fully off-screen after one capped frame while
its fade animation is still in progress. -/
def obs3 : Obstacle :=
  { obstacleGenerator (-188/5) 160 none 150 with
    fadeAnim := { isAnimating := true, progress := 1/2, duration := 1/2 } }

/-- A playing world holding only `obs3`. -/
def w3ex : World :=
  { World.init 600 with
    gameState := { GState.init with hasStarted := true },
    obstacles := [obs3] }

/-- A playing world with the player mid-interpolation from grid line 4
toward grid line 5, and an obstacle sitting exactly on the discrete target
line within collision range. -/
def w4ex : World :=
  { World.init 600 with
    gameState := { GState.init with hasStarted := true },
    player := ⟨128, 128, "half"⟩,
    movement := ⟨true, 1/2, some 128, some 160⟩,
    obstacles := [obstacleGenerator 130 160 none 150] }

/-- The `w4ex` obstacle after one 16 ms frame of motion. -/
def obs4 : Obstacle := { obstacleGenerator 130 160 none 150 with pixelX := 638/5 }

/-- A playing world with one live obstacle inside the hit window at staff
line 6.5. -/
def w5a : World :=
  { World.init 600 with
    gameState := { GState.init with hasStarted := true },
    obstacles := [obstacleGenerator 120 208 none 150] }

/-- A playing world whose only obstacle is far right of the hit window. -/
def w5b : World :=
  { World.init 600 with
    gameState := { GState.init with hasStarted := true },
    obstacles := [obstacleGenerator 500 208 none 150] }

/-! ## The claims -/

/-- C2 counterexample: `restartGame` does not deactivate the hit-zone-flash
sub-state machine.  From a GameOver state in the middle of a red flash,
the flash is still active after the restart, refuting "deactivates every
animation sub-state machine (... hit-zone flash ...)". -/
theorem c2_counterexample :
    w2ex.gameState.isGameOver = true ∧
    w2ex.hitZoneFlash.isFlashing = true ∧
    (restartGame w2ex).hitZoneFlash.isFlashing = true :=
  ⟨rfl, rfl, rfl⟩

/-- C2 amended: `restartGame` (from any state, in particular from GameOver)
resets lives to max, score to 0, empties the obstacle pool (and with it all
obstacle fades), returns the player to the initial position, deactivates
the player-hit bounce and the note-name display, clears the movement
interpolation, and sets the game state to Playing — but it leaves the
hit-zone flash state machine untouched (an active flash keeps running and
decays on its own within 0.3 s). -/
theorem c2_restart_resets (w : World) :
    (restartGame w).lives.current = w.lives.max ∧
    (restartGame w).score = 0 ∧
    (restartGame w).obstacles = [] ∧
    (restartGame w).player.pixelX = PLAYER_INITIAL_GRID_X * GRID_SIZE ∧
    (restartGame w).player.pixelY = PLAYER_INITIAL_GRID_Y * GRID_SIZE ∧
    (restartGame w).movement.isMoving = false ∧
    (restartGame w).playerAnim.isAnimating = false ∧
    (restartGame w).noteDisplay.noteName = none ∧
    (restartGame w).gameState.hasStarted = true ∧
    (restartGame w).gameState.isGameOver = false ∧
    (restartGame w).hitZoneFlash = w.hitZoneFlash :=
  ⟨rfl, rfl, rfl, rfl, rfl, rfl, rfl, rfl, rfl, rfl, rfl⟩

/-- C3 counterexample: the pool cleanup removes an obstacle whose fade
animation is still in progress as soon as it is fully off-screen — the
removal condition is a disjunction (off-screen OR fade-complete), not a
conjunction.  Shown both for the cleanup pass itself and across one whole
frame event, where the obstacle is dropped while its fade (advanced by the
same frame) is still running. -/
theorem c3_counterexample :
    obsFadingOffscreen.fadeAnim.isAnimating = true ∧
    obsFadingOffscreen.fadeAnim.progress < 1 ∧
    cleanupObstacles [obsFadingOffscreen] = [] ∧
    ((obs3.fadeAnim.update (2/125)).isAnimating = true ∧
      (obs3.fadeAnim.update (2/125)).progress < 1) ∧
    (applyEvent (GEvent.frame (2/125) 0) w3ex).obstacles = [] := by
  have hupd : FadeAnim.update ⟨true, 1/2, 1/2⟩ (2/125) = ⟨true, 133/250, 1/2⟩ := by
    unfold FadeAnim.update
    rw [if_pos rfl, if_neg (show ¬((1:ℚ) ≤ 1/2 + 2/125 / (1/2)) by norm_num)]
    norm_num
  refine ⟨rfl, show (1:ℚ)/2 < 1 by norm_num, ?_, ?_, ?_⟩
  · have hrm : shouldRemove obsFadingOffscreen = true :=
      shouldRemove_off (show (-40:ℚ) + GRID_SIZE < 0 by norm_num [GRID_SIZE])
    unfold cleanupObstacles
    simp [List.filter, hrm]
  · rw [show obs3.fadeAnim = (⟨true, 1/2, 1/2⟩ : FadeAnim) from rfl, hupd]
    exact ⟨rfl, by norm_num⟩
  · rw [applyEvent_frame_playing rfl rfl, min_self, update_obstacles]
    have hnospawn : (stepSpawn (2/125) 0
        (stepGState (2/125) w3ex.gameState).difficulty
        w3ex.gameWidth w3ex.spawner w3ex.obstacles).2 = w3ex.obstacles := by
      apply stepSpawn_no_spawn
      intro hle
      have h45 := getSpawnInterval_ge (stepGState (2/125) w3ex.gameState).difficulty
      have : (4:ℚ)/5 ≤ w3ex.spawner.timeSinceLastSpawn + 2/125 := le_trans h45 hle
      rw [show w3ex.spawner.timeSinceLastSpawn = 0 from rfl] at this
      norm_num at this
    rw [hnospawn, show w3ex.obstacles = [obs3] from rfl]
    have hrm : shouldRemove (missMark overlayStartX (moveFade (2/125) obs3)) = true := by
      apply shouldRemove_off
      rw [missMark_pixelX]
      show (-188)/5 - 150 * (2/125) + GRID_SIZE < 0
      norm_num [GRID_SIZE]
    simp only [List.map]
    unfold cleanupObstacles
    simp [List.filter, hrm]

/-- A kept obstacle is exactly one that is neither fully off-screen nor
fade-complete. -/
theorem keep_iff (o : Obstacle) : (!shouldRemove o) = true ↔
    ¬(o.pixelX + GRID_SIZE < 0) ∧
    ¬(1 ≤ o.fadeAnim.progress ∧ o.fadeAnim.isAnimating = false) := by
  constructor
  · intro h
    by_cases h1 : o.pixelX + GRID_SIZE < 0
    · rw [shouldRemove_off h1] at h
      exact absurd h (by simp)
    · refine ⟨h1, ?_⟩
      rintro ⟨hp, ha⟩
      unfold shouldRemove at h
      rw [decide_eq_true hp, ha] at h
      simp [decide_eq_false h1] at h
  · rintro ⟨h1, h2⟩
    by_cases hp : 1 ≤ o.fadeAnim.progress
    · have ha : o.fadeAnim.isAnimating = true := by
        by_contra hn
        exact h2 ⟨hp, by simpa using hn⟩
      unfold shouldRemove
      rw [decide_eq_false h1, decide_eq_true hp, ha]
      rfl
    · rw [shouldRemove_keep h1 hp]
      rfl

/-- C3 amended: the cleanup preserves two invariants, the first weakened to
on-screen obstacles: an obstacle that is still (even partly) on screen is
never removed while its fade animation is in progress, and after the
cleanup pass no obstacle whose right edge has crossed the left boundary
remains in the pool — whether fading or not; a fully off-screen obstacle
is removed even mid-fade. -/
theorem c3_cleanup_amended (l : List Obstacle) :
    (∀ o ∈ l, ¬(o.pixelX + GRID_SIZE < 0) → o.fadeAnim.isAnimating = true →
      o ∈ cleanupObstacles l) ∧
    (∀ o ∈ cleanupObstacles l, ¬(o.pixelX + GRID_SIZE < 0)) := by
  constructor
  · intro o hm hoff hanim
    unfold cleanupObstacles
    rw [List.mem_filter]
    refine ⟨hm, (keep_iff o).2 ⟨hoff, ?_⟩⟩
    rintro ⟨-, hna⟩
    rw [hanim] at hna
    exact Bool.true_eq_false.mp hna
  · intro o hm
    unfold cleanupObstacles at hm
    rw [List.mem_filter] at hm
    exact ((keep_iff o).1 hm.2).1

theorem c3_witness :
    obsOnScreenFading ∈ cleanupObstacles [obsOnScreenFading] ∧
    ¬(obsOnScreenFading.pixelX + GRID_SIZE < 0) := by
  have h1 := (c3_cleanup_amended [obsOnScreenFading]).1 obsOnScreenFading
    (List.mem_singleton.2 rfl)
    (show ¬((100:ℚ) + GRID_SIZE < 0) by norm_num [GRID_SIZE]) rfl
  exact ⟨h1, (c3_cleanup_amended [obsOnScreenFading]).2 obsOnScreenFading h1⟩

/-- C6: `checkMiss` on an un-flagged obstacle whose right edge is strictly
left of the overlay start marks it avoided and loses exactly one life;
applying `checkMiss` again to the marked obstacle returns `false` and
changes nothing — neither a second life loss nor a flag change. -/
theorem c6_checkMiss_idempotent (l : Lives) (obs : Obstacle) (px os : ℚ)
    (h1 : obs.hasBeenAvoided = false) (h2 : obs.hasCollided = false)
    (h3 : obs.pixelX + GRID_SIZE < os) (h4 : 0 < l.current) :
    l.checkMiss obs px os =
      ((l.loseLife).1, { obs with hasBeenAvoided := true }, true) ∧
    (l.loseLife).1.current = l.current - 1 ∧
    Lives.checkMiss (l.loseLife).1 { obs with hasBeenAvoided := true } px os =
      ((l.loseLife).1, { obs with hasBeenAvoided := true }, false) := by
  refine ⟨?_, loseLife_fst_current_of_pos l h4, ?_⟩
  · unfold Lives.checkMiss
    rw [if_pos ⟨h3, h1, h2⟩]
  · unfold Lives.checkMiss
    rw [if_neg]
    rintro ⟨-, hav, -⟩
    exact Bool.true_eq_false.mp hav

theorem c6_witness :
    Lives.checkMiss ⟨5, 5⟩ (obstacleGenerator 90 160 none 150) 128 128 =
      (((⟨5, 5⟩ : Lives).loseLife).1,
        { obstacleGenerator 90 160 none 150 with hasBeenAvoided := true }, true) ∧
    ((⟨5, 5⟩ : Lives).loseLife).1.current = 5 - 1 ∧
    Lives.checkMiss ((⟨5, 5⟩ : Lives).loseLife).1
        { obstacleGenerator 90 160 none 150 with hasBeenAvoided := true } 128 128 =
      (((⟨5, 5⟩ : Lives).loseLife).1,
        { obstacleGenerator 90 160 none 150 with hasBeenAvoided := true }, false) :=
  c6_checkMiss_idempotent ⟨5, 5⟩ (obstacleGenerator 90 160 none 150) 128 128
    rfl rfl (show (90:ℚ) + GRID_SIZE < 128 by norm_num [GRID_SIZE]) (by decide)

/-- C8: lives stay within `[0, max]` in every reachable state; `loseLife`
at 0 stays at 0 and reports game over; at 1 it reaches 0 and reports game
over; five losses from the initial 5 reach 0; and no single event ever
increases `lives.current` except the restart reset back to max. -/
theorem c8_lives_bounds (gw : ℚ) (es : List GEvent) (hwf : EventsWF es)
    (e : GEvent) (w : World) :
    Lives.loseLife ⟨0, 5⟩ = (⟨0, 5⟩, true) ∧
    Lives.loseLife ⟨1, 5⟩ = (⟨0, 5⟩, true) ∧
    (((((Lives.init.loseLife).1.loseLife).1.loseLife).1.loseLife).1.loseLife).1.current
      = 0 ∧
    (0 ≤ (replay gw es).lives.current ∧
      (replay gw es).lives.current ≤ (replay gw es).lives.max) ∧
    ((applyEvent e w).lives.current ≤ w.lives.current ∨
      (applyEvent e w).lives.current = w.lives.max) := by
  have hinv := replay_inv gw hwf
  exact ⟨by decide, by decide, by decide,
    ⟨hinv.2.2.2.2.1, hinv.2.2.2.2.2.1⟩, applyEvent_lives e w⟩

theorem c8_witness :
    Lives.loseLife ⟨0, 5⟩ = (⟨0, 5⟩, true) ∧
    Lives.loseLife ⟨1, 5⟩ = (⟨0, 5⟩, true) ∧
    (((((Lives.init.loseLife).1.loseLife).1.loseLife).1.loseLife).1.loseLife).1.current
      = 0 ∧
    (0 ≤ (replay 600 [GEvent.clickStart, GEvent.frame 1 0]).lives.current ∧
      (replay 600 [GEvent.clickStart, GEvent.frame 1 0]).lives.current ≤
        (replay 600 [GEvent.clickStart, GEvent.frame 1 0]).lives.max) ∧
    ((applyEvent (GEvent.keyDown "d") w1ex).lives.current ≤ w1ex.lives.current ∨
      (applyEvent (GEvent.keyDown "d") w1ex).lives.current = w1ex.lives.max) :=
  c8_lives_bounds 600 [GEvent.clickStart, GEvent.frame 1 0]
    (by
      intro e he
      fin_cases he <;> norm_num [GEvent.wfB])
    (GEvent.keyDown "d") w1ex

/-- C10: the score is a non-negative multiple of 100 in every reachable
state (the only delta ever applied is the +100 of
`COLLISION_POINTS_GAINED`; the configured `MISS_POINTS_LOST` is never
applied — misses penalise lives only), and a single event never decreases
the score except the restart reset back to 0. -/
theorem c10_score (gw : ℚ) (es : List GEvent) (hwf : EventsWF es)
    (e : GEvent) (w : World) :
    0 ≤ (replay gw es).score ∧
    (100 : ℤ) ∣ (replay gw es).score ∧
    ((applyEvent e w).score = 0 ∨ w.score ≤ (applyEvent e w).score) := by
  have hinv := replay_inv gw hwf
  exact ⟨hinv.2.2.2.2.2.2.2.1, hinv.2.2.2.2.2.2.2.2.1, applyEvent_score e w⟩

theorem c10_witness :
    0 ≤ (replay 600 [GEvent.clickStart, GEvent.frame 1 0]).score ∧
    (100 : ℤ) ∣ (replay 600 [GEvent.clickStart, GEvent.frame 1 0]).score ∧
    ((applyEvent (GEvent.keyDown "d") w1ex).score = 0 ∨
      w1ex.score ≤ (applyEvent (GEvent.keyDown "d") w1ex).score) :=
  c10_score 600 [GEvent.clickStart, GEvent.frame 1 0]
    (by
      intro e he
      fin_cases he <;> norm_num [GEvent.wfB])
    (GEvent.keyDown "d") w1ex

/-- C9: `getNoteDuration` is the `60/BPM`-scaled table lookup (whole 4
beats, half 2, quarter 1, eighth 1/2, sixteenth 1/4; at BPM = 90 a whole
note lasts `(60/90)*4 = 8/3` s), with unknown values falling back to the
quarter duration; the hit window used by resolution starts at the treble
clef right edge (128 px) and is `duration * 150` wide — anchored to the
fixed reference speed 150, so the resolution outcome does not depend on
the current difficulty level at all. -/
theorem c9_note_duration_window :
    BPM = 90 ∧
    getNoteDuration "whole" = 60 / 90 * 4 ∧
    getNoteDuration "half" = 60 / 90 * 2 ∧
    getNoteDuration "quarter" = 60 / 90 * 1 ∧
    getNoteDuration "eighth" = 60 / 90 * (1/2) ∧
    getNoteDuration "sixteenth" = 60 / 90 * (1/4) ∧
    getNoteDuration "whole" = 8/3 ∧
    (∀ s : String,
      s ∉ (["whole", "half", "quarter", "eighth", "sixteenth"] : List String) →
      getNoteDuration s = getNoteDuration "quarter") ∧
    (∀ nv : String, overlayWidth nv = getNoteDuration nv * 150) ∧
    overlayStartX = trebleClefX + trebleClefWidth ∧
    overlayStartX = 128 ∧
    (∀ nv : String, overlayEndX nv = overlayStartX + overlayWidth nv) ∧
    (∀ (w : World) (gridYs : List ℚ) (d : ℤ),
      (handleNoteKeyPress gridYs
          { w with gameState := { w.gameState with difficulty := d } }).obstacles =
        (handleNoteKeyPress gridYs w).obstacles ∧
      (handleNoteKeyPress gridYs
          { w with gameState := { w.gameState with difficulty := d } }).lives =
        (handleNoteKeyPress gridYs w).lives ∧
      (handleNoteKeyPress gridYs
          { w with gameState := { w.gameState with difficulty := d } }).score =
        (handleNoteKeyPress gridYs w).score) := by
  have hq : getNoteDuration "quarter" = 60 / 90 * 1 := by
    unfold getNoteDuration
    rw [if_neg (by decide), if_neg (by decide), if_pos rfl]
    norm_num [BPM]
  refine ⟨rfl, ?_, ?_, hq, ?_, ?_, ?_, ?_, fun nv => rfl, rfl,
    by norm_num [overlayStartX, trebleClefX, trebleClefWidth, GRID_SIZE],
    fun nv => rfl, ?_⟩
  · unfold getNoteDuration
    rw [if_pos rfl]
    norm_num [BPM]
  · unfold getNoteDuration
    rw [if_neg (by decide), if_pos rfl]
    norm_num [BPM]
  · unfold getNoteDuration
    rw [if_neg (by decide), if_neg (by decide), if_neg (by decide), if_pos rfl]
    norm_num [BPM]
  · unfold getNoteDuration
    rw [if_neg (by decide), if_neg (by decide), if_neg (by decide),
      if_neg (by decide), if_pos rfl]
    norm_num [BPM]
  · unfold getNoteDuration
    rw [if_pos rfl]
    norm_num [BPM]
  · intro s hs
    simp only [List.mem_cons, not_or, List.mem_singleton] at hs
    obtain ⟨h1, h2, h3, h4, h5, -⟩ := hs
    rw [hq]
    unfold getNoteDuration
    rw [if_neg h1, if_neg h2, if_neg h3, if_neg h4, if_neg h5]
    norm_num [BPM]
  · intro w gridYs d
    simp only [handleNoteKeyPress]
    by_cases hc : (pressGo gridYs overlayStartX
        (overlayStartX + overlayWidth w.player.noteValue)
        { obstacles := [], score := w.score, playerAnim := w.playerAnim,
          noteDisplay := w.noteDisplay, audioLog := w.audioLog,
          hitCorrectNote := false, hasObstacleInOverlay := false }
        w.obstacles).hasObstacleInOverlay = true ∧
      (pressGo gridYs overlayStartX
        (overlayStartX + overlayWidth w.player.noteValue)
        { obstacles := [], score := w.score, playerAnim := w.playerAnim,
          noteDisplay := w.noteDisplay, audioLog := w.audioLog,
          hitCorrectNote := false, hasObstacleInOverlay := false }
        w.obstacles).hitCorrectNote = false
    · rw [if_pos hc, if_pos hc]
      exact ⟨rfl, rfl, rfl⟩
    · rw [if_neg hc, if_neg hc]
      exact ⟨rfl, rfl, rfl⟩

theorem c9_witness :
    getNoteDuration "triplet" = getNoteDuration "quarter" ∧
    overlayWidth "half" = getNoteDuration "half" * 150 ∧
    (handleNoteKeyPress [6]
        { w5a with gameState := { w5a.gameState with difficulty := 3 } }).score =
      (handleNoteKeyPress [6] w5a).score := by
  obtain ⟨-, -, -, -, -, -, -, hfb, how, -, -, -, hind⟩ := c9_note_duration_window
  exact ⟨hfb "triplet" (by decide), how "half", (hind w5a [6] 3).2.2⟩

/-- C5: for every note-key press with lives remaining: if at least one
obstacle with both flags clear has its center inside the hit window but no
obstacle inside the window matches any pressed staff line, then exactly
one life is lost, the error sound is triggered and a red hit-zone flash
starts (score untouched); if no obstacle has its center inside the hit
window at all, the press changes neither score nor lives — a no-op, not a
miss. -/
theorem c5_press_miss_vs_noop (w : World) (gridYs : List ℚ)
    (hlives : 0 < w.lives.current) :
    ((∃ o ∈ w.obstacles, o.hasCollided = false ∧ o.hasBeenAvoided = false ∧
        overlayStartX ≤ o.pixelX + GRID_SIZE / 2 ∧
        o.pixelX + GRID_SIZE / 2 ≤ overlayStartX + overlayWidth w.player.noteValue) →
      (∀ o ∈ w.obstacles,
        (overlayStartX ≤ o.pixelX + GRID_SIZE / 2 ∧
          o.pixelX + GRID_SIZE / 2 ≤ overlayStartX + overlayWidth w.player.noteValue) →
        ¬ ∃ g ∈ gridYs, |g - toFixed1 (o.pixelY / GRID_SIZE)| < 1/10) →
      ((handleNoteKeyPress gridYs w).lives.current = w.lives.current - 1 ∧
       (handleNoteKeyPress gridYs w).score = w.score ∧
       (handleNoteKeyPress gridYs w).audioLog = w.audioLog ++ [AudioCall.errorSound] ∧
       (handleNoteKeyPress gridYs w).hitZoneFlash.isFlashing = true ∧
       (handleNoteKeyPress gridYs w).hitZoneFlash.color = FlashColor.red ∧
       (handleNoteKeyPress gridYs w).hitZoneFlash.progress = 0)) ∧
    ((∀ o ∈ w.obstacles,
        ¬(overlayStartX ≤ o.pixelX + GRID_SIZE / 2 ∧
          o.pixelX + GRID_SIZE / 2 ≤ overlayStartX + overlayWidth w.player.noteValue)) →
      ((handleNoteKeyPress gridYs w).score = w.score ∧
       (handleNoteKeyPress gridYs w).lives = w.lives)) := by
  constructor
  · intro hA hB
    obtain ⟨hl, hscore, haudio, hflash, -⟩ := hnkp_miss_parts gridYs w hA hB
    refine ⟨?_, hscore, haudio, ?_, ?_, ?_⟩
    · rw [hl]
      exact loseLife_fst_current_of_pos _ hlives
    · rw [hflash]
      rfl
    · rw [hflash]
      rfl
    · rw [hflash]
      rfl
  · intro hN
    obtain ⟨h1, h2, -⟩ := hnkp_noop_parts gridYs w hN
    exact ⟨h1, h2⟩

theorem c5_witness :
    ((handleNoteKeyPress [6] w5a).lives.current = w5a.lives.current - 1 ∧
     (handleNoteKeyPress [6] w5a).score = w5a.score ∧
     (handleNoteKeyPress [6] w5a).audioLog = w5a.audioLog ++ [AudioCall.errorSound] ∧
     (handleNoteKeyPress [6] w5a).hitZoneFlash.isFlashing = true ∧
     (handleNoteKeyPress [6] w5a).hitZoneFlash.color = FlashColor.red ∧
     (handleNoteKeyPress [6] w5a).hitZoneFlash.progress = 0) ∧
    ((handleNoteKeyPress [6] w5b).score = w5b.score ∧
     (handleNoteKeyPress [6] w5b).lives = w5b.lives) := by
  constructor
  · refine (c5_press_miss_vs_noop w5a [6] (by decide)).1 ?_ ?_
    · refine ⟨obstacleGenerator 120 208 none 150, List.mem_singleton.2 rfl, rfl, rfl,
        by norm_num [obstacleGenerator, overlayStartX, trebleClefX, trebleClefWidth,
          GRID_SIZE], ?_⟩
      show (120:ℚ) + GRID_SIZE / 2 ≤ overlayStartX + overlayWidth (w5a.player.noteValue)
      rw [show w5a.player.noteValue = "half" from rfl]
      unfold overlayWidth
      rw [getNoteDuration_half]
      norm_num [overlayStartX, trebleClefX, trebleClefWidth, GRID_SIZE]
    · intro o ho hw
      have ho' : o ∈ [obstacleGenerator 120 208 none 150] := ho
      rcases List.mem_singleton.1 ho' with rfl
      rintro ⟨g, hg, habs⟩
      rcases List.mem_singleton.1 hg with rfl
      norm_num [toFixed1, obstacleGenerator, GRID_SIZE, round_eq, abs_lt] at habs
  · refine (c5_press_miss_vs_noop w5b [6] (by decide)).2 ?_
    intro o ho
    have ho' : o ∈ [obstacleGenerator 500 208 none 150] := ho
    rcases List.mem_singleton.1 ho' with rfl
    rintro ⟨-, hup⟩
    rw [show w5b.player.noteValue = "half" from rfl] at hup
    unfold overlayWidth at hup
    rw [getNoteDuration_half] at hup
    norm_num [obstacleGenerator, overlayStartX, trebleClefX, trebleClefWidth,
      GRID_SIZE] at hup

/-- C1 counterexample: a keydown of the mapped letter "d" arriving while
`isNoteKeyPressed` is already true (a held key / OS auto-repeat) still
resolves: with a live obstacle at staff line 6.5 inside the hit window the
repeated event is a miss and costs a life — the handler has no debounce on
the held-key flag. -/
theorem c1_counterexample :
    w1ex.gameState.isNoteKeyPressed = true ∧
    NOTE_KEY_MAP "d" = some [6] ∧
    w1ex.lives.current = 5 ∧
    (handleKeyDown "d" w1ex).lives.current = 4 := by
  refine ⟨rfl, rfl, rfl, ?_⟩
  have h1 : ¬("d" = "r" ∧ w1ex.gameState.isGameOver = true) := by
    rintro ⟨h, -⟩
    exact absurd h (by decide)
  have h2 : ¬(w1ex.gameState.isGameOver = true) := by decide
  have h3 : NOTE_KEY_MAP "d" = some [6] := rfl
  obtain ⟨t, heq⟩ := handleKeyDown_mapped h1 h2 h3
  rw [heq, (hnkp_gs_indep [6] w1ex _).2.1]
  have hA : ∃ o ∈ w1ex.obstacles, o.hasCollided = false ∧ o.hasBeenAvoided = false ∧
      overlayStartX ≤ o.pixelX + GRID_SIZE / 2 ∧
      o.pixelX + GRID_SIZE / 2 ≤ overlayStartX + overlayWidth w1ex.player.noteValue := by
    refine ⟨obstacleGenerator 120 208 none 150, List.mem_singleton.2 rfl, rfl, rfl,
      by norm_num [obstacleGenerator, overlayStartX, trebleClefX, trebleClefWidth,
        GRID_SIZE], ?_⟩
    show (120:ℚ) + GRID_SIZE / 2 ≤ overlayStartX + overlayWidth (w1ex.player.noteValue)
    rw [show w1ex.player.noteValue = "half" from rfl]
    unfold overlayWidth
    rw [getNoteDuration_half]
    norm_num [overlayStartX, trebleClefX, trebleClefWidth, GRID_SIZE]
  have hB : ∀ o ∈ w1ex.obstacles,
      (overlayStartX ≤ o.pixelX + GRID_SIZE / 2 ∧
        o.pixelX + GRID_SIZE / 2 ≤ overlayStartX + overlayWidth w1ex.player.noteValue) →
      ¬ ∃ g ∈ ([6] : List ℚ), |g - toFixed1 (o.pixelY / GRID_SIZE)| < 1/10 := by
    intro o ho hw
    have ho' : o ∈ [obstacleGenerator 120 208 none 150] := ho
    rcases List.mem_singleton.1 ho' with rfl
    rintro ⟨g, hg, habs⟩
    rcases List.mem_singleton.1 hg with rfl
    norm_num [toFixed1, obstacleGenerator, GRID_SIZE, round_eq, abs_lt] at habs
  rw [(hnkp_miss_parts [6] w1ex hA hB).1]
  decide

/-- C1 amended: repeated keydown events of a held note key are not
debounced — `handleKeyDown` never reads `isNoteKeyPressed` (it only sets
it), so a keydown that arrives while the flag is already true resolves
exactly like a first press: the resulting pool, lives and score are
identical whatever the value of the held-key flag; in particular, an
auto-repeat event can decrement lives or mark obstacles just like a fresh
press. -/
theorem c1_no_debounce (w : World) (key : String) (b : Bool) :
    (handleKeyDown key
        { w with gameState := { w.gameState with isNoteKeyPressed := b } }).obstacles =
      (handleKeyDown key w).obstacles ∧
    (handleKeyDown key
        { w with gameState := { w.gameState with isNoteKeyPressed := b } }).lives =
      (handleKeyDown key w).lives ∧
    (handleKeyDown key
        { w with gameState := { w.gameState with isNoteKeyPressed := b } }).score =
      (handleKeyDown key w).score := by
  simp only [handleKeyDown]
  by_cases h1 : key = "r" ∧ w.gameState.isGameOver = true
  · rw [if_pos h1, if_pos h1]
    exact ⟨rfl, rfl, rfl⟩
  · rw [if_neg h1, if_neg h1]
    by_cases h2 : w.gameState.isGameOver = true
    · rw [if_pos h2, if_pos h2]
      exact ⟨rfl, rfl, rfl⟩
    · rw [if_neg h2, if_neg h2]
      cases NOTE_KEY_MAP key with
      | none => exact ⟨rfl, rfl, rfl⟩
      | some gridYs => exact ⟨rfl, rfl, rfl⟩

/-- C4 counterexample: with the player mid-interpolation (moveProgress = 1/2
between grid lines 4 and 5) and an obstacle sitting exactly on the discrete
target line 5 within horizontal collision range, the collision pass compares
against the lerp-interpolated fractional staff value 4.6 — not the discrete
target value 5.0 — so the matching obstacle is not collided: the frame leaves
the score at 0 and every obstacle unmarked, refuting "the staff-line
comparison ... equals the one obtained from the discrete target grid line". -/
theorem c4_counterexample :
    w4ex.movement.isMoving = true ∧
    0 < w4ex.movement.moveProgress ∧ w4ex.movement.moveProgress < 1 ∧
    toFixed1 ((Option.getD w4ex.movement.nextPixelY 0) / GRID_SIZE) = 5 ∧
    toFixed1 ((obstacleGenerator 130 160 none 150).pixelY / GRID_SIZE) = 5 ∧
    toFixed1
      (((stepMovement (2/125) w4ex.movement w4ex.player).2.getPixelY
          (stepMovement (2/125) w4ex.movement w4ex.player).1) / GRID_SIZE) = 23/5 ∧
    (23 : ℚ)/5 ≠ 5 ∧
    |(stepMovement (2/125) w4ex.movement w4ex.player).2.getPixelX
        (stepMovement (2/125) w4ex.movement w4ex.player).1 + PLAYER_SIZE / 2 -
      ((moveFade (2/125) (obstacleGenerator 130 160 none 150)).pixelX + GRID_SIZE / 2)| <
      PLAYER_SIZE ∧
    (applyEvent (GEvent.frame (2/125) 0) w4ex).score = 0 ∧
    ∀ o ∈ (applyEvent (GEvent.frame (2/125) 0) w4ex).obstacles,
      o.hasCollided = false := by
  have hsm : stepMovement (2/125) w4ex.movement w4ex.player =
      ((⟨true, 91/150, some 128, some 160⟩ : Movement),
       (⟨128, 128, "half"⟩ : Player)) := by
    show stepMovement (2/125) ⟨true, 1/2, some 128, some 160⟩ ⟨128, 128, "half"⟩ = _
    simp only [stepMovement]
    norm_num [MOVE_SPEED]
  have hpx : (⟨128, 128, "half"⟩ : Player).getPixelX
      ⟨true, 91/150, some 128, some 160⟩ = 128 := by
    simp only [Player.getPixelX]
    norm_num
  have hpy : (⟨128, 128, "half"⟩ : Player).getPixelY
      ⟨true, 91/150, some 128, some 160⟩ = 11056/75 := by
    simp only [Player.getPixelY]
    norm_num
  have hmf : moveFade (2/125) (obstacleGenerator 130 160 none 150) = obs4 := by
    unfold moveFade obs4
    rw [fadeUpdate_inactive _ rfl]
    norm_num [obstacleGenerator]
  have hpool : cleanupObstacles (missPhase (2/125) (0 : Fin 9) w4ex).obstacles =
      [obs4] := by
    rw [missPhase_obstacles]
    rw [stepSpawn_no_spawn (by
      intro hle
      have h2 := le_trans (getSpawnInterval_ge _) hle
      rw [show w4ex.spawner.timeSinceLastSpawn = 0 from rfl] at h2
      norm_num at h2)]
    rw [show w4ex.obstacles = [obstacleGenerator 130 160 none 150] from rfl]
    simp only [List.map_cons, List.map_nil]
    rw [hmf]
    rw [missMark_id (by
      rintro ⟨h, -⟩
      norm_num [obs4, obstacleGenerator, GRID_SIZE, overlayStartX, trebleClefX,
        trebleClefWidth] at h)]
    have hsr : shouldRemove obs4 = false :=
      shouldRemove_keep
        (by norm_num [obs4, obstacleGenerator, GRID_SIZE])
        (by norm_num [obs4, obstacleGenerator, FadeAnim.init])
    simp [cleanupObstacles, hsr]
  have hno : ∀ o ∈ [obs4],
      ¬((|(128 : ℚ) + PLAYER_SIZE / 2 - (o.pixelX + GRID_SIZE / 2)| < PLAYER_SIZE ∧
        toFixed1 ((11056 : ℚ)/75 / GRID_SIZE) = toFixed1 (o.pixelY / GRID_SIZE)) ∧
        o.hasCollided = false) := by
    intro o ho
    rcases List.mem_singleton.1 ho with h
    subst h
    rintro ⟨⟨-, habs⟩, -⟩
    norm_num [obs4, obstacleGenerator, toFixed1, GRID_SIZE, round_eq] at habs
  have hcp : collidePhase (2/125) (0 : Fin 9) w4ex =
      { obstacles := [obs4], score := w4ex.score, playerAnim := w4ex.playerAnim,
        noteDisplay := w4ex.noteDisplay, hitZoneFlash := w4ex.hitZoneFlash,
        audioLog := (missPhase (2/125) (0 : Fin 9) w4ex).audioLog } := by
    unfold collidePhase
    rw [hpool, hsm]
    dsimp only
    rw [hpx, hpy]
    rw [collideGo_no_hit 128 (11056/75) _ _ hno]
    rfl
  refine ⟨rfl, ?_, ?_, ?_, ?_, ?_, by norm_num, ?_, ?_, ?_⟩
  · show (0 : ℚ) < 1/2
    norm_num
  · show (1 : ℚ)/2 < 1
    norm_num
  · show toFixed1 ((160 : ℚ) / GRID_SIZE) = 5
    norm_num [toFixed1, GRID_SIZE, round_eq]
  · norm_num [obstacleGenerator, toFixed1, GRID_SIZE, round_eq]
  · rw [hsm]
    dsimp only
    rw [hpy]
    norm_num [toFixed1, GRID_SIZE, round_eq]
  · rw [hsm]
    dsimp only
    rw [hpx, hmf]
    norm_num [obs4, obstacleGenerator, PLAYER_SIZE, GRID_SIZE, abs_lt]
  · rw [applyEvent_frame_playing rfl rfl,
      show min (2/125 : ℚ) (2/125) = 2/125 from min_self _]
    show (collidePhase (2/125) (0 : Fin 9) w4ex).score = 0
    rw [hcp]
    rfl
  · rw [applyEvent_frame_playing rfl rfl,
      show min (2/125 : ℚ) (2/125) = 2/125 from min_self _]
    show ∀ o ∈ (collidePhase (2/125) (0 : Fin 9) w4ex).obstacles,
      o.hasCollided = false
    rw [hcp]
    intro o ho
    rcases List.mem_singleton.1 ho with h
    subst h
    rfl

/-- C4 amended: the collision pass DOES read the player position through the
lerp-interpolating getters, so the invariant fails for arbitrary worlds
(see the counterexample); however, in every state reachable from the
initial world by well-formed events the movement interpolation is never
active, so the interpolated Y coincides with the discrete player pixelY and
the collision pass of a frame compares against exactly the discrete player
position. -/
theorem c4_amended (gw : ℚ) (es : List GEvent) (hwf : EventsWF es)
    (delta : ℚ) (r : Fin 9) :
    (replay gw es).movement.isMoving = false ∧
    (replay gw es).player.getPixelY (replay gw es).movement =
      (replay gw es).player.pixelY ∧
    collidePhase delta r (replay gw es) =
      collideGo (replay gw es).player.pixelX (replay gw es).player.pixelY
        { obstacles := [], score := (replay gw es).score,
          playerAnim := (replay gw es).playerAnim,
          noteDisplay := (replay gw es).noteDisplay,
          hitZoneFlash := (replay gw es).hitZoneFlash,
          audioLog := (missPhase delta r (replay gw es)).audioLog }
        (cleanupObstacles (missPhase delta r (replay gw es)).obstacles) := by
  have hm : (replay gw es).movement.isMoving = false := (replay_inv gw hwf).1
  refine ⟨hm, getPixelY_not_moving hm, ?_⟩
  unfold collidePhase
  rw [stepMovement_not_moving hm]
  dsimp only
  rw [getPixelX_not_moving hm, getPixelY_not_moving hm]

/-- C4 witness: the amended theorem instantiated at the empty event
sequence. -/
theorem c4_witness :
    EventsWF ([] : List GEvent) ∧
    ((replay 600 []).movement.isMoving = false ∧
     (replay 600 []).player.getPixelY (replay 600 []).movement =
       (replay 600 []).player.pixelY ∧
     collidePhase 1 0 (replay 600 []) =
       collideGo (replay 600 []).player.pixelX (replay 600 []).player.pixelY
         { obstacles := [], score := (replay 600 []).score,
           playerAnim := (replay 600 []).playerAnim,
           noteDisplay := (replay 600 []).noteDisplay,
           hitZoneFlash := (replay 600 []).hitZoneFlash,
           audioLog := (missPhase 1 0 (replay 600 [])).audioLog }
         (cleanupObstacles (missPhase 1 0 (replay 600 [])).obstacles)) :=
  ⟨fun e he => absurd he (List.not_mem_nil e),
   c4_amended 600 [] (fun e he => absurd he (List.not_mem_nil e)) 1 0⟩

/-- C7: every freshly generated obstacle starts with both flags false; in
every state reachable by well-formed events no obstacle ever has both
`hasBeenAvoided` and `hasCollided` set (at most one of the two becomes
true); and every single event step (frame update with its passive-miss and
passive-collision passes, key press resolution, key release, click) is
flag-monotone: the surviving obstacles of the old pool plus the freshly
spawned all-false obstacles map `Forall₂`-pointwise onto the new pool with
each flag only ever turning from false to true, never cleared. -/
theorem c7_flags (gw : ℚ) (es : List GEvent) (hwf : EventsWF es) :
    (∀ pX pY ip sp, (obstacleGenerator pX pY ip sp).hasBeenAvoided = false ∧
      (obstacleGenerator pX pY ip sp).hasCollided = false) ∧
    (∀ o ∈ (replay gw es).obstacles,
      ¬(o.hasBeenAvoided = true ∧ o.hasCollided = true)) ∧
    ∀ e (w : World), StepFlagsMono e w := by
  refine ⟨fun pX pY ip sp => ⟨rfl, rfl⟩, fun o ho => ?_,
    fun e w => stepFlagsMono_all e w⟩
  exact ((replay_inv gw hwf).2.2.2.2.2.2.2.2.2 o ho).2.1

/-- C7 witness: the flag theorem instantiated at a one-event run. -/
theorem c7_witness :
    EventsWF [GEvent.keyDown "c"] ∧
    ((∀ pX pY ip sp, (obstacleGenerator pX pY ip sp).hasBeenAvoided = false ∧
        (obstacleGenerator pX pY ip sp).hasCollided = false) ∧
     (∀ o ∈ (replay 600 [GEvent.keyDown "c"]).obstacles,
        ¬(o.hasBeenAvoided = true ∧ o.hasCollided = true)) ∧
     ∀ e (w : World), StepFlagsMono e w) :=
  ⟨fun e he => by rcases List.mem_singleton.1 he with h; subst h; rfl,
   c7_flags 600 [GEvent.keyDown "c"]
     (fun e he => by rcases List.mem_singleton.1 he with h; subst h; rfl)⟩

end MusicGame
